import Mathlib

/-!
Verification development for the OpenFortiVPN connector extension.

The stateful `VpnService` class is shallowly embedded as pure functions over an
explicit `VpnState` record; each method returns its boolean result, the updated
state, and a trace of externally visible effects.  Asynchronous callbacks
(process stdout/stderr/close handlers, the interface probe, the reconnect
timer) are modelled as separate step functions invoked by events.  Informational
logging is not tracked as an effect; calls to the error logger are tracked as
`Effect.logError`.  Wall-clock time for the scheduler is modelled at one-second
granularity (day index since the Unix epoch plus second of day).
-/

namespace OpenForti

/-- A VPN connection profile (models the `VpnProfile` interface: id, name,
host, port, username, optional pinned certificate, optional SAML flag).
`port` is a string as in the source; the empty string is the falsy case. -/
structure VpnProfile where
  id : String
  name : String
  host : String
  port : String
  username : String
  trustedCert : Option String := none
  useSamlLogin : Bool := false
deriving Repr, DecidableEq

/-- JavaScript truthiness of an optional string value: `undefined` (here
`none`) and the empty string are falsy. -/
def falsy : Option String → Bool
  | none => true
  | some s => s == ""

/-- VPN auto-reconnect states (`ReconnectState` enum). -/
inductive ReconnectState where
  | Idle
  | Attempting
  | MaxRetriesReached
deriving Repr, DecidableEq

/-- Auto-reconnect configuration (`getAutoReconnectConfig`). -/
structure AutoReconnectConfig where
  enabled : Bool
  maxRetries : Nat
  interval : Nat
deriving Repr, DecidableEq

/-- The mutable fields of the `VpnService` class.  `currentProcess` holds the
id of the live child process, if any; `nextPid` is a fresh-name supply for
spawned processes.  `reconnectTimerPending` records whether a reconnect
timer is armed. -/
structure VpnState where
  isConnected : Bool
  isConnecting : Bool
  reconnectTimerPending : Bool
  reconnectAttempts : Nat
  reconnectState : ReconnectState
  lastConnectedProfile : Option VpnProfile
  lastDisconnectWasManual : Bool
  pendingCertHash : Option String
  awaitingCertTrust : Bool
  currentProcess : Option Nat
  nextPid : Nat
deriving Repr, DecidableEq

/-- The initial state of a freshly constructed `VpnService`. -/
def initialState : VpnState where
  isConnected := false
  isConnecting := false
  reconnectTimerPending := false
  reconnectAttempts := 0
  reconnectState := .Idle
  lastConnectedProfile := none
  lastDisconnectWasManual := false
  pendingCertHash := none
  awaitingCertTrust := false
  currentProcess := none
  nextPid := 0

/-- Externally visible effects of the service.  Informational log lines are
not tracked; `logError` records a call to the error logger. -/
inductive Effect where
  | logError
  | promptInput
  | promptQuickPick
  | storeSecret
  | spawnVpn (args : List String)
  | spawnKillCommand
  | killCurrentProcess
  | settleDelay (ms : Nat)
  | metricsStart
  | metricsStop
  | statusChanged (connected : Bool)
  | scheduleReconnect (seconds : Nat)
deriving Repr, DecidableEq

/-- The secret store contents: the saved elevation (sudo) password and the
saved VPN password per profile id. -/
structure Secrets where
  sudoPassword : Option String
  vpnPassword : String → Option String

/-- Responses the user would give to interactive prompts, and the outcome of
external queries, fixed per call.  `none` models a dismissed input box. -/
structure Env where
  config : AutoReconnectConfig
  secrets : Secrets
  sudoInput : Option String
  saveSudo : Bool
  vpnInput : Option String
  saveVpn : Bool
  disconnectInput : Option String
  activeProfile : Option VpnProfile
  killExitCode : Int
  metricsActive : Bool

/-- Clears the reconnect timer and resets the reconnect state and counter
(`stopAutoReconnect`). -/
def stopAutoReconnect (st : VpnState) : VpnState :=
  { st with reconnectTimerPending := false, reconnectState := .Idle, reconnectAttempts := 0 }

/-- Resets auto-reconnect state when manually connecting
(`resetAutoReconnectState`). -/
def resetAutoReconnectState (st : VpnState) : VpnState :=
  { stopAutoReconnect st with lastDisconnectWasManual := false }

/-- Arms the reconnect timer for `intervalSeconds` (`scheduleReconnect`). -/
def scheduleReconnectTimer (intervalSeconds : Nat) (st : VpnState) : VpnState × List Effect :=
  ({ st with reconnectTimerPending := true }, [Effect.scheduleReconnect intervalSeconds])

/-- Starts the auto-reconnect process if enabled (`startAutoReconnect`). -/
def startAutoReconnect (env : Env) (st : VpnState) : VpnState × List Effect :=
  if !env.config.enabled || st.lastConnectedProfile.isNone || st.lastDisconnectWasManual then
    (st, [])
  else if st.reconnectState = .Attempting then
    (st, [])
  else
    scheduleReconnectTimer env.config.interval
      { st with reconnectAttempts := 0, reconnectState := .Attempting }

/-- The tail of `disconnect` once a usable password is in hand: spawn the
privileged kill command and await it (a nonzero exit is only logged), kill
the tracked child process, stop metrics, force the Disconnected state, and
fire the status-changed notification.  `pre` is the effect trace of any
prompt that happened before. -/
def disconnectKill (env : Env) (st1 : VpnState) (pre : List Effect) :
    Bool × VpnState × List Effect :=
  let closeEffs : List Effect := if env.killExitCode == 0 then [] else [Effect.logError]
  let killEffs : List Effect :=
    if st1.currentProcess.isSome then [Effect.killCurrentProcess] else []
  let st3 := { st1 with currentProcess := none,
                        isConnected := false, isConnecting := false }
  (true, st3,
    pre ++ [Effect.spawnKillCommand] ++ closeEffs ++ killEffs
      ++ [Effect.metricsStop, Effect.statusChanged false])

/-- The saved password looked up for disconnection: the VPN password of the
active profile, if any. -/
def savedDisconnectPassword (env : Env) : Option String :=
  match env.activeProfile with
  | some p => env.secrets.vpnPassword p.id
  | none => none

/-- Disconnects from the VPN (`disconnect`).  Returns the boolean result, the
new state and the effect trace.  Prompts for a password only on the manual
path; an automatic disconnect with no saved password fails with an error
log. -/
def disconnect (env : Env) (isManualDisconnect : Bool) (st : VpnState) :
    Bool × VpnState × List Effect :=
  if !st.isConnected && !st.isConnecting then
    (false, st, [])
  else
    let st1 := if isManualDisconnect then
        stopAutoReconnect { st with lastDisconnectWasManual := true }
      else st
    let saved : Option String := savedDisconnectPassword env
    if falsy saved && isManualDisconnect then
      if falsy env.disconnectInput then (false, st1, [Effect.promptInput])
      else disconnectKill env st1 [Effect.promptInput]
    else if falsy saved && !isManualDisconnect then
      (false, st1, [Effect.logError])
    else disconnectKill env st1 []

/-- The argument list passed to the spawned `sudo` process when connecting. -/
def spawnArgs (profile : VpnProfile) : List String :=
  let hostWithPort := if profile.port == "" then profile.host
    else profile.host ++ ":" ++ profile.port
  ["-S", "openfortivpn", hostWithPort, "-u", profile.username]
    ++ (if falsy profile.trustedCert then []
        else ["--trusted-cert", profile.trustedCert.getD ""])
    ++ (if profile.useSamlLogin then ["--saml-login"] else [])

/-- Sudo-password acquisition phase of `connect`: returns `none` when the
user cancels the prompt (connect returns false), otherwise the password in
hand, plus prompt/store effects.  Prompting happens only for manual
connections. -/
def acquireSudo (env : Env) (isReconnectAttempt : Bool) :
    Option (Option String) × List Effect :=
  let saved := env.secrets.sudoPassword
  if falsy saved && !isReconnectAttempt then
    if falsy env.sudoInput then (none, [Effect.promptInput])
    else if env.saveSudo then
      (some env.sudoInput, [Effect.promptInput, Effect.promptQuickPick, Effect.storeSecret])
    else (some env.sudoInput, [Effect.promptInput, Effect.promptQuickPick])
  else (some saved, [])

/-- VPN-password acquisition phase of `connect`.  For SAML profiles the VPN
password is the empty string and no lookup or prompt happens. -/
def acquireVpnPassword (env : Env) (profile : VpnProfile) (isReconnectAttempt : Bool) :
    Option (Option String) × List Effect :=
  if !profile.useSamlLogin then
    let saved := env.secrets.vpnPassword profile.id
    if falsy saved && !isReconnectAttempt then
      if falsy env.vpnInput then (none, [Effect.promptInput])
      else if env.saveVpn then
        (some env.vpnInput, [Effect.promptInput, Effect.promptQuickPick, Effect.storeSecret])
      else (some env.vpnInput, [Effect.promptInput, Effect.promptQuickPick])
    else (some saved, [])
  else (some (some ""), [])

/-- The part of `connect` after the teardown of any prior session: resets
the auto-reconnect state for manual connections, acquires credentials
(prompting only on the manual path), applies the reconnect missing-credential
checks, and spawns the subprocess.  `effs0` is the effect trace accumulated
by the teardown. -/
def connectMain (env : Env) (profile : VpnProfile) (isReconnectAttempt : Bool)
    (st1 : VpnState) (effs0 : List Effect) : Bool × VpnState × List Effect :=
  let st2 := if !isReconnectAttempt then resetAutoReconnectState st1 else st1
  let a1 := acquireSudo env isReconnectAttempt
  match a1.1 with
  | none => (false, st2, effs0 ++ a1.2)
  | some sudoPassword =>
    let a2 := acquireVpnPassword env profile isReconnectAttempt
    match a2.1 with
    | none => (false, st2, effs0 ++ a1.2 ++ a2.2)
    | some vpnPassword =>
      let effs := effs0 ++ a1.2 ++ a2.2
      if !profile.useSamlLogin && (falsy sudoPassword || falsy vpnPassword)
          && isReconnectAttempt then
        (false, st2, effs)
      else if profile.useSamlLogin && falsy sudoPassword && isReconnectAttempt then
        (false, st2, effs)
      else
        let st3 := { st2 with isConnecting := true,
                              currentProcess := some st2.nextPid,
                              nextPid := st2.nextPid + 1 }
        (true, st3, effs ++ [Effect.spawnVpn (spawnArgs profile)])

/-- Connects to the VPN using the given profile (`connect`).  If a session is
already connected or connecting it is first torn down via
`disconnect false` followed by a settle delay; a failed teardown aborts.
The function resolves `true` as soon as the subprocess is spawned. -/
def connect (env : Env) (profile : VpnProfile) (isReconnectAttempt : Bool) (st : VpnState) :
    Bool × VpnState × List Effect :=
  if st.isConnected || st.isConnecting then
    let d := disconnect env false st
    if d.1 then
      connectMain env profile isReconnectAttempt d.2.1
        (d.2.2 ++ [Effect.settleDelay 1000])
    else (false, d.2.1, d.2.2 ++ [Effect.logError])
  else connectMain env profile isReconnectAttempt st []

/-- Stdout handler transition on observing the success sentinel
(output containing the phrase that the tunnel is up): the connection is
established, the profile is snapshotted for auto-reconnect, metrics start. -/
def processStdoutSentinel (profile : VpnProfile) (st : VpnState) : VpnState × List Effect :=
  let st1 := stopAutoReconnect
    { st with isConnecting := false, isConnected := true,
              lastConnectedProfile := some profile }
  (st1, [Effect.metricsStart, Effect.statusChanged true])

/-- Process `close` handler transition (`on close` in `connect`). -/
def processClose (env : Env) (code : Int) (st : VpnState) : VpnState × List Effect :=
  if code != 0 && st.isConnecting then
    ({ st with isConnecting := false, currentProcess := none },
      [Effect.logError, Effect.statusChanged false])
  else if st.isConnected then
    let st1 := { st with isConnected := false, currentProcess := none }
    let effs := [Effect.metricsStop, Effect.statusChanged false]
    if !st1.lastDisconnectWasManual then
      let s := startAutoReconnect env st1
      (s.1, effs ++ s.2)
    else (st1, effs)
  else ({ st with currentProcess := none }, [])

/-- Process `error` handler transition (`on error` in `connect`). -/
def processError (st : VpnState) : VpnState × List Effect :=
  ({ st with isConnecting := false, currentProcess := none },
    [Effect.logError, Effect.statusChanged false])

/-- One tick of the periodic interface probe (`checkVPNStatus`), given
whether the tunnel interface `ppp0` is present. -/
def checkVPNStatus (env : Env) (present : Bool) (st : VpnState) : VpnState × List Effect :=
  if !present then
    if st.isConnected then
      let st1 := { st with isConnected := false, isConnecting := false }
      let effs := [Effect.metricsStop, Effect.statusChanged false]
      if !st1.lastDisconnectWasManual then
        let s := startAutoReconnect env st1
        (s.1, effs ++ s.2)
      else (st1, effs)
    else (st, [])
  else
    let st1 := { st with isConnecting := false }
    if !st1.isConnected then
      let st2 := { st1 with isConnected := true }
      let m : VpnState × List Effect :=
        if !env.metricsActive then
          match env.activeProfile with
          | some p => ({ st2 with lastConnectedProfile := some p }, [Effect.metricsStart])
          | none => (st2, ([] : List Effect))
        else (st2, [])
      (stopAutoReconnect m.1, m.2 ++ [Effect.statusChanged true])
    else (st1, [])

/-- Firing of the reconnect timer (`attemptReconnect`): increments the
attempt counter, tries `connect` with the snapshotted profile, and either
resets to `Idle`, gives up at the configured maximum, or schedules the next
attempt. -/
def attemptReconnect (env : Env) (st : VpnState) : VpnState × List Effect :=
  let st0 := { st with reconnectTimerPending := false }
  match st0.lastConnectedProfile with
  | none => ({ st0 with reconnectState := .Idle }, [Effect.logError])
  | some p =>
    let st1 := { st0 with reconnectAttempts := st0.reconnectAttempts + 1 }
    let c := connect env p true st1
    if c.1 then
      ({ c.2.1 with reconnectState := .Idle, reconnectAttempts := 0 }, c.2.2)
    else if c.2.1.reconnectAttempts ≥ env.config.maxRetries then
      ({ c.2.1 with reconnectState := .MaxRetriesReached }, c.2.2 ++ [Effect.logError])
    else
      let s := scheduleReconnectTimer env.config.interval c.2.1
      (s.1, c.2.2 ++ s.2)

/-- Manual retry after the maximum number of reconnect attempts
(`retryConnection`). -/
def retryConnection (env : Env) (st : VpnState) : Bool × VpnState × List Effect :=
  match st.lastConnectedProfile with
  | none => (false, st, [])
  | some p =>
    if st.reconnectState = .MaxRetriesReached then
      connect env p false (resetAutoReconnectState st)
    else (false, st, [])

/-- User cancellation of the auto-reconnect process (`cancelAutoReconnect`). -/
def cancelAutoReconnect (st : VpnState) : VpnState :=
  if st.reconnectState = .Idle then st
  else stopAutoReconnect { st with lastDisconnectWasManual := true }

/-- Clears the pending certificate trust data (`resetCertificateTrustState`). -/
def resetCertificateTrustState (st : VpnState) : VpnState :=
  { st with pendingCertHash := none, awaitingCertTrust := false }

/-- Replaces the first profile with a matching id (the array assignment at
the index found by `findIndex` in `ProfileManager.updateProfile`). -/
def replaceFirstById : List VpnProfile → VpnProfile → List VpnProfile
  | [], _ => []
  | q :: rest, p => if q.id == p.id then p :: rest else q :: replaceFirstById rest p

/-- The external profile store update (`ProfileManager.updateProfile`):
returns `none` when no profile with the given id exists (the source throws). -/
def updateProfile (profiles : List VpnProfile) (p : VpnProfile) :
    Option (List VpnProfile) :=
  if profiles.any (fun q => q.id == p.id) then some (replaceFirstById profiles p)
  else none

/-- Accepting a certificate trust prompt (`saveCertificateAndReconnect`):
persists the digest onto the profile through the profile store, kills the
failed subprocess, waits briefly, and re-invokes `connect` with the updated
profile and the original reconnect flag.  `pm` is the profile store contents,
`none` when no profile manager was set. -/
def saveCertificateAndReconnect (env : Env) (pm : Option (List VpnProfile))
    (profile : VpnProfile) (certHash : String) (isReconnectAttempt : Bool)
    (st : VpnState) : Option (List VpnProfile) × VpnState × List Effect :=
  match pm with
  | none => (none, resetCertificateTrustState st, [Effect.logError])
  | some profiles =>
    let updatedProfile := { profile with trustedCert := some certHash }
    match updateProfile profiles updatedProfile with
    | none => (some profiles, resetCertificateTrustState st, [Effect.logError])
    | some profiles2 =>
      let st1 := resetCertificateTrustState st
      let killEffs : List Effect :=
        if st1.currentProcess.isSome then [Effect.killCurrentProcess] else []
      let st3 := { st1 with currentProcess := none,
                            isConnecting := false, isConnected := false }
      let c := connect env updatedProfile isReconnectAttempt st3
      (some profiles2, c.2.1, killEffs ++ [Effect.settleDelay 1000] ++ c.2.2)

/-- Events driving the service: user commands, subprocess lifecycle events,
probe ticks and timer fires. -/
inductive Event where
  | connectCmd (profile : VpnProfile) (isReconnectAttempt : Bool)
  | disconnectCmd (isManual : Bool)
  | sentinel (profile : VpnProfile)
  | procClose (code : Int)
  | procError
  | probeTick (present : Bool)
  | timerFire
  | retryCmd
  | cancelCmd
  | certAccept (profiles : List VpnProfile) (profile : VpnProfile)
      (digest : String) (isReconnectAttempt : Bool)

/-- State component of one event step. -/
def stepState (env : Env) (e : Event) (st : VpnState) : VpnState :=
  match e with
  | .connectCmd p b => (connect env p b st).2.1
  | .disconnectCmd m => (disconnect env m st).2.1
  | .sentinel p => (processStdoutSentinel p st).1
  | .procClose c => (processClose env c st).1
  | .procError => (processError st).1
  | .probeTick pr => (checkVPNStatus env pr st).1
  | .timerFire => (attemptReconnect env st).1
  | .retryCmd => (retryConnection env st).2.1
  | .cancelCmd => cancelAutoReconnect st
  | .certAccept profiles p d b => (saveCertificateAndReconnect env (some profiles) p d b st).2.1

/-- Runs a list of events, each with its own environment. -/
def runEvents (evs : List (Env × Event)) (st : VpnState) : VpnState :=
  evs.foldl (fun s pe => stepState pe.1 pe.2 s) st

/-- Events that can occur without any user intervention: probe ticks,
subprocess exit or error, and a reconnect timer fire. -/
def isAutoEvent : Event → Bool
  | .probeTick _ => true
  | .procClose _ => true
  | .procError => true
  | .timerFire => true
  | _ => false

/-- Iterated firing of the reconnect timer. -/
def iterTimer (env : Env) : Nat → VpnState → VpnState
  | 0, st => st
  | n + 1, st => iterTimer env n (attemptReconnect env st).1

/-- VPN schedule action type (`VpnScheduleType`). -/
inductive VpnScheduleType where
  | Connect
  | Disconnect
deriving Repr, DecidableEq

/-- Schedule repeat policy (`RepeatType`). -/
inductive RepeatType where
  | Once
  | Daily
  | Weekly
deriving Repr, DecidableEq

/-- A VPN schedule (`VpnSchedule` interface).  Timestamps are seconds. -/
structure VpnSchedule where
  id : String
  name : String
  profileId : String
  type : VpnScheduleType
  time : String
  repeatType : RepeatType
  weekdays : Option (List Nat) := none
  enabled : Bool
  lastRun : Option Nat := none
  nextRun : Option Nat := none
deriving Repr, DecidableEq

/-- A wall-clock instant at one-second granularity: days since the Unix
epoch (1970-01-01, a Thursday) and seconds since local midnight. -/
structure DateTime where
  day : Nat
  sod : Nat
deriving Repr, DecidableEq

/-- Timestamp in seconds of a `DateTime`. -/
def DateTime.toSec (t : DateTime) : Nat := t.day * 86400 + t.sod

/-- Day of week of an epoch day index (0 = Sunday, as in JS `getDay`). -/
def dayOfWeek (d : Nat) : Nat := (d + 4) % 7

/-- Splits a character list at each colon, modelling
`schedule.time.split(":")`. -/
def splitCols : List Char → List (List Char)
  | [] => [[]]
  | c :: rest =>
    if c = ':' then [] :: splitCols rest
    else match splitCols rest with
      | [] => [[c]]
      | g :: gs => (c :: g) :: gs

/-- Converts a nonempty digit string to a number, as the JS `Number`
conversion does on canonical digit-only input; anything else is `none`
(NaN). -/
def digitsToNat (l : List Char) : Option Nat :=
  if l = [] then none
  else l.foldl (fun acc c => match acc with
    | none => none
    | some n => if c.isDigit then some (n * 10 + (c.toNat - 48)) else none) (some 0)

/-- Parses a well-formed `HH:MM` time string.  Malformed time strings (which
produce NaN arithmetic in the source) are outside the model and mapped to
midnight; all theorems below assume a well-formed time. -/
def parseTime (s : String) : Nat × Nat :=
  match (splitCols s.data).map digitsToNat with
  | [some h, some m] => (h, m)
  | _ => (0, 0)

/-- The weekly-advance computation appearing in both branches of
`calculateNextRun`: sort the configured weekdays, take the first one
strictly after the current weekday, or fall back to the smallest configured
weekday in the following week.  An empty weekday list (undefined index 0 in
the source) is outside the model; theorems assume it nonempty. -/
def weeklyDaysToAdd (currentDayOfWeek : Nat) (ws : List Nat) : Nat :=
  let sortedWeekdays := ws.insertionSort (· ≤ ·)
  match sortedWeekdays.find? (fun day => currentDayOfWeek < day) with
  | some nextDay => nextDay - currentDayOfWeek
  | none => 7 - currentDayOfWeek + sortedWeekdays.headD 0

/-- Next run time of a schedule (`calculateNextRun`), evaluated at `now`. -/
def calculateNextRun (now : DateTime) (schedule : VpnSchedule) : Nat :=
  let hm := parseTime schedule.time
  let targetSod := (hm.1 * 60 + hm.2) * 60
  let target : DateTime := ⟨now.day, targetSod⟩
  if target.toSec ≤ now.toSec then
    match schedule.repeatType, schedule.weekdays with
    | .Once, _ => DateTime.toSec ⟨now.day + 1, targetSod⟩
    | .Daily, _ => DateTime.toSec ⟨now.day + 1, targetSod⟩
    | .Weekly, some ws =>
      DateTime.toSec ⟨now.day + weeklyDaysToAdd (dayOfWeek now.day) ws, targetSod⟩
    | .Weekly, none => target.toSec
  else
    match schedule.repeatType, schedule.weekdays with
    | .Weekly, some ws =>
      if ws.contains (dayOfWeek now.day) then target.toSec
      else DateTime.toSec ⟨now.day + weeklyDaysToAdd (dayOfWeek now.day) ws, targetSod⟩
    | _, _ => target.toSec

/-- Post-execution bookkeeping of `_executeSchedule`: record `lastRun`,
disable a `Once` schedule, otherwise recompute `nextRun`. -/
def finishSchedule (now : DateTime) (schedule : VpnSchedule) (success : Bool)
    (st : VpnState) (effs : List Effect) : Bool × VpnState × VpnSchedule × List Effect :=
  let sched1 := { schedule with lastRun := some now.toSec }
  let sched2 := if schedule.repeatType = .Once then { sched1 with enabled := false }
    else { sched1 with nextRun := some (calculateNextRun now sched1) }
  (success, st, sched2, effs)

/-- Execution of a schedule (`ScheduleService._executeSchedule`): a `Connect`
schedule resolves its profile and dispatches to `connect` with
`isReconnectAttempt = false`; a `Disconnect` schedule dispatches to
`disconnect false` when connected.  A missing profile aborts before any
bookkeeping.  `isManual` only selects user-facing message boxes, which are
not tracked. -/
def executeSchedule (env : Env) (now : DateTime) (profiles : List VpnProfile)
    (schedule : VpnSchedule) (isManual : Bool) (st : VpnState) :
    Bool × VpnState × VpnSchedule × List Effect :=
  match schedule.type with
  | .Connect =>
    match profiles.find? (fun p => p.id == schedule.profileId) with
    | none => (false, st, schedule, [Effect.logError])
    | some profile =>
      let c := connect env profile false st
      if c.1 then finishSchedule now schedule true c.2.1 c.2.2
      else finishSchedule now schedule false c.2.1 (c.2.2 ++ [Effect.logError])
  | .Disconnect =>
    if st.isConnected then
      let d := disconnect env false st
      finishSchedule now schedule d.1 d.2.1 d.2.2
    else finishSchedule now schedule true st []

/-- Mutual-exclusion invariant on the raw state flags: the service is never
simultaneously marked connecting and connected. -/
def ConnInv (st : VpnState) : Prop :=
  ¬(st.isConnecting = true ∧ st.isConnected = true)

/-- A concrete profile used to instantiate theorems. -/
def sampleProfile : VpnProfile :=
  { id := "p1", name := "Main", host := "vpn.example.com", port := "443", username := "alice" }

/-- The empty secret store: no saved passwords. -/
def emptySecrets : Secrets := { sudoPassword := none, vpnPassword := fun _ => none }

/-- A secret store with both passwords saved for every profile. -/
def savedSecrets : Secrets := { sudoPassword := some "sudopw", vpnPassword := fun _ => some "vpnpw" }

/-- A concrete environment with auto-reconnect enabled and nothing saved. -/
def envNoSecrets : Env :=
  { config := { enabled := true, maxRetries := 3, interval := 10 },
    secrets := emptySecrets,
    sudoInput := none, saveSudo := false, vpnInput := none, saveVpn := false,
    disconnectInput := none, activeProfile := some sampleProfile,
    killExitCode := 0, metricsActive := false }

/-- A concrete environment with saved credentials. -/
def envSaved : Env := { envNoSecrets with secrets := savedSecrets }

/-- A concrete environment with saved credentials whose kill command fails. -/
def envKillFail : Env := { envSaved with killExitCode := 1 }

/-- A concrete state with an established connection and a live subprocess. -/
def connectedState : VpnState :=
  { initialState with isConnected := true, currentProcess := some 0, nextPid := 1,
                      lastConnectedProfile := some sampleProfile }

/-- A concrete state at the start of a reconnect episode. -/
def attemptingState : VpnState :=
  { initialState with reconnectState := .Attempting, reconnectTimerPending := true,
                      lastConnectedProfile := some sampleProfile }

/-- The status bar shows Connecting: connecting and not in a reconnect
episode (`updateStatusBar`). -/
def showsConnecting (st : VpnState) : Prop :=
  st.isConnecting = true ∧ st.reconnectState ≠ .Attempting

/-- The status bar shows Reconnecting: connecting during a reconnect
episode (`updateStatusBar`). -/
def showsReconnecting (st : VpnState) : Prop :=
  st.isConnecting = true ∧ st.reconnectState = .Attempting

/-- The status bar shows Connected (`updateStatusBar`). -/
def showsConnected (st : VpnState) : Prop := st.isConnected = true

/-- Specification predicate for the weekly scheduler: `r` is the earliest
strictly-future timestamp (in seconds) at second-of-day `sod` whose weekday
is in `ws`. -/
def earliestWeekly (now : DateTime) (sod : Nat) (ws : List Nat) (r : Nat) : Prop :=
  (∃ dd : Nat, r = dd * 86400 + sod ∧ dayOfWeek dd ∈ ws ∧ now.toSec < r) ∧
  (∀ dd : Nat, dayOfWeek dd ∈ ws → now.toSec < dd * 86400 + sod →
    r ≤ dd * 86400 + sod)

/-- A concrete weekly schedule: 09:00 on Mondays and Wednesdays. -/
def monWedSchedule : VpnSchedule :=
  { id := "s1", name := "MonWed", profileId := "p1", type := VpnScheduleType.Connect,
    time := "09:00", repeatType := RepeatType.Weekly, weekdays := some [1, 3],
    enabled := true }

/-- A concrete daily Connect schedule at 09:00. -/
def dailySchedule : VpnSchedule :=
  { id := "s2", name := "Daily", profileId := "p1", type := VpnScheduleType.Connect,
    time := "09:00", repeatType := RepeatType.Daily, enabled := true }

/-! ## Helper lemmas -/

theorem disconnect_not_connected (env : Env) (m : Bool) (st : VpnState)
    (h1 : st.isConnected = false) (h2 : st.isConnecting = false) :
    disconnect env m st = (false, st, []) := by
  simp [disconnect, h1, h2]

theorem disconnect_no_spawnVpn (env : Env) (m : Bool) (st : VpnState) (args : List String) :
    Effect.spawnVpn args ∉ (disconnect env m st).2.2 := by
  unfold disconnect disconnectKill
  cases m <;> cases hs : falsy (savedDisconnectPassword env) <;>
    cases hd : falsy env.disconnectInput <;>
      simp [hs, hd] <;> split_ifs <;> simp

theorem disconnect_no_prompt_nonmanual (env : Env) (st : VpnState) :
    Effect.promptInput ∉ (disconnect env false st).2.2 ∧
    Effect.promptQuickPick ∉ (disconnect env false st).2.2 := by
  unfold disconnect disconnectKill
  cases hs : falsy (savedDisconnectPassword env) <;>
    simp [hs] <;> split_ifs <;> simp

theorem disconnect_true_state (env : Env) (m : Bool) (st : VpnState)
    (h : (disconnect env m st).1 = true) :
    (disconnect env m st).2.1.isConnected = false ∧
    (disconnect env m st).2.1.isConnecting = false ∧
    (disconnect env m st).2.1.currentProcess = none := by
  unfold disconnect disconnectKill at *
  cases m <;> cases hs : falsy (savedDisconnectPassword env) <;>
    cases hd : falsy env.disconnectInput <;>
      simp [hs, hd] at h ⊢ <;> split_ifs at h ⊢ <;> simp_all

theorem acquireSudo_reconnect (env : Env) :
    acquireSudo env true = (some env.secrets.sudoPassword, []) := by
  simp [acquireSudo]

theorem acquireVpnPassword_reconnect (env : Env) (p : VpnProfile) :
    acquireVpnPassword env p true =
      (if p.useSamlLogin then (some (some ""), [])
       else (some (env.secrets.vpnPassword p.id), [])) := by
  unfold acquireVpnPassword
  cases hsaml : p.useSamlLogin <;> simp

theorem connectMain_reconnect_missing (env : Env) (p : VpnProfile) (st1 : VpnState)
    (effs0 : List Effect)
    (h : falsy env.secrets.sudoPassword = true ∨
         (p.useSamlLogin = false ∧ falsy (env.secrets.vpnPassword p.id) = true)) :
    connectMain env p true st1 effs0 = (false, st1, effs0) := by
  unfold connectMain
  rw [acquireSudo_reconnect, acquireVpnPassword_reconnect]
  cases hsaml : p.useSamlLogin <;>
    rcases h with h | ⟨h1, h2⟩ <;> simp_all [falsy]

theorem connectMain_reconnect_effects (env : Env) (p : VpnProfile) (st1 : VpnState)
    (effs0 : List Effect) :
    (connectMain env p true st1 effs0).2.2 = effs0 ∨
    (connectMain env p true st1 effs0).2.2 = effs0 ++ [Effect.spawnVpn (spawnArgs p)] := by
  unfold connectMain
  rw [acquireSudo_reconnect, acquireVpnPassword_reconnect]
  cases hsaml : p.useSamlLogin <;>
    cases hs : falsy env.secrets.sudoPassword <;>
    cases hv : falsy (env.secrets.vpnPassword p.id) <;> simp_all

theorem connectMain_true_state (env : Env) (p : VpnProfile) (b : Bool) (st1 : VpnState)
    (effs0 : List Effect) (h : (connectMain env p b st1 effs0).1 = true) :
    (connectMain env p b st1 effs0).2.1.isConnecting = true ∧
    (connectMain env p b st1 effs0).2.1.isConnected = st1.isConnected ∧
    Effect.spawnVpn (spawnArgs p) ∈ (connectMain env p b st1 effs0).2.2 := by
  unfold connectMain acquireSudo acquireVpnPassword at *
  cases b <;> cases hsaml : p.useSamlLogin <;>
    cases hs : falsy env.secrets.sudoPassword <;>
    cases hv : falsy (env.secrets.vpnPassword p.id) <;>
    cases hsi : falsy env.sudoInput <;> cases hvi : falsy env.vpnInput <;>
    cases hss : env.saveSudo <;> cases hsv : env.saveVpn <;>
    simp_all [resetAutoReconnectState, stopAutoReconnect]

theorem connect_not_connected (env : Env) (p : VpnProfile) (b : Bool) (st : VpnState)
    (h1 : st.isConnected = false) (h2 : st.isConnecting = false) :
    connect env p b st = connectMain env p b st [] := by
  simp [connect, h1, h2]

theorem connect_reconnect_missing_false (env : Env) (p : VpnProfile) (st : VpnState)
    (h1 : st.isConnected = false) (h2 : st.isConnecting = false)
    (h : falsy env.secrets.sudoPassword = true ∨
         (p.useSamlLogin = false ∧ falsy (env.secrets.vpnPassword p.id) = true)) :
    connect env p true st = (false, st, []) := by
  rw [connect_not_connected env p true st h1 h2,
    connectMain_reconnect_missing env p st [] h]

theorem connect_true_spawned (env : Env) (p : VpnProfile) (b : Bool) (st : VpnState)
    (h : (connect env p b st).1 = true) :
    (connect env p b st).2.1.isConnecting = true ∧
    (connect env p b st).2.1.isConnected = false ∧
    Effect.spawnVpn (spawnArgs p) ∈ (connect env p b st).2.2 := by
  unfold connect at *
  by_cases hc : (st.isConnected || st.isConnecting) = true
  · rw [if_pos hc] at h ⊢
    by_cases hd : (disconnect env false st).1 = true
    · rw [if_pos hd] at h ⊢
      have hst := disconnect_true_state env false st hd
      have hm := connectMain_true_state env p b (disconnect env false st).2.1
        ((disconnect env false st).2.2 ++ [Effect.settleDelay 1000]) h
      exact ⟨hm.1, by rw [hm.2.1, hst.1], hm.2.2⟩
    · rw [if_neg hd] at h
      simp at h
  · rw [if_neg hc] at h ⊢
    simp only [Bool.or_eq_true, not_or, Bool.not_eq_true] at hc
    have hm := connectMain_true_state env p b st [] h
    exact ⟨hm.1, by rw [hm.2.1, hc.1], hm.2.2⟩

theorem connect_reconnect_no_prompt (env : Env) (p : VpnProfile) (st : VpnState) :
    Effect.promptInput ∉ (connect env p true st).2.2 ∧
    Effect.promptQuickPick ∉ (connect env p true st).2.2 := by
  unfold connect
  by_cases hc : (st.isConnected || st.isConnecting) = true
  · rw [if_pos hc]
    have hdp := disconnect_no_prompt_nonmanual env st
    by_cases hd : (disconnect env false st).1 = true
    · rw [if_pos hd]
      rcases connectMain_reconnect_effects env p (disconnect env false st).2.1
        ((disconnect env false st).2.2 ++ [Effect.settleDelay 1000]) with he | he <;>
        rw [he] <;> simp_all
    · rw [if_neg hd]
      simp_all
  · rw [if_neg hc]
    rcases connectMain_reconnect_effects env p st [] with he | he <;> rw [he] <;> simp

theorem connect_reconnect_missing (env : Env) (p : VpnProfile) (st : VpnState)
    (hmiss : falsy env.secrets.sudoPassword = true ∨
         (p.useSamlLogin = false ∧ falsy (env.secrets.vpnPassword p.id) = true)) :
    (connect env p true st).1 = false ∧
    (∀ args : List String, Effect.spawnVpn args ∉ (connect env p true st).2.2) := by
  unfold connect
  by_cases hc : (st.isConnected || st.isConnecting) = true
  · rw [if_pos hc]
    by_cases hd : (disconnect env false st).1 = true
    · rw [if_pos hd]
      rw [connectMain_reconnect_missing env p (disconnect env false st).2.1
        ((disconnect env false st).2.2 ++ [Effect.settleDelay 1000]) hmiss]
      refine ⟨rfl, fun args => ?_⟩
      have := disconnect_no_spawnVpn env false st args
      simp_all
    · rw [if_neg hd]
      refine ⟨rfl, fun args => ?_⟩
      have := disconnect_no_spawnVpn env false st args
      simp_all
  · rw [if_neg hc]
    rw [connectMain_reconnect_missing env p st [] hmiss]
    simp

theorem attemptReconnect_fail_missing (env : Env) (p : VpnProfile) (st : VpnState)
    (hp : st.lastConnectedProfile = some p)
    (h1 : st.isConnected = false) (h2 : st.isConnecting = false)
    (hmiss : falsy env.secrets.sudoPassword = true ∨
         (p.useSamlLogin = false ∧ falsy (env.secrets.vpnPassword p.id) = true)) :
    attemptReconnect env st =
      (if st.reconnectAttempts + 1 ≥ env.config.maxRetries then
        ({ st with reconnectTimerPending := false,
                   reconnectAttempts := st.reconnectAttempts + 1,
                   reconnectState := .MaxRetriesReached },
          [Effect.logError])
      else
        ({ st with reconnectTimerPending := true,
                   reconnectAttempts := st.reconnectAttempts + 1 },
          [Effect.scheduleReconnect env.config.interval])) := by
  have hc := connect_reconnect_missing_false env p
    { st with reconnectTimerPending := false,
              reconnectAttempts := st.reconnectAttempts + 1 }
    (by simp [h1]) (by simp [h2]) hmiss
  unfold attemptReconnect
  simp only [hp, hc, scheduleReconnectTimer]
  split_ifs with hge <;> simp_all

theorem processClose_idle (env : Env) (c : Int) (st : VpnState)
    (h1 : st.isConnected = false) (h2 : st.isConnecting = false) :
    processClose env c st = ({ st with currentProcess := none }, []) := by
  simp [processClose, h1, h2]

theorem checkVPNStatus_absent_idle (env : Env) (st : VpnState)
    (h1 : st.isConnected = false) :
    checkVPNStatus env false st = (st, []) := by
  simp [checkVPNStatus, h1]

theorem iterTimer_fail (env : Env) (p : VpnProfile)
    (hmiss : falsy env.secrets.sudoPassword = true ∨
         (p.useSamlLogin = false ∧ falsy (env.secrets.vpnPassword p.id) = true)) :
    ∀ (k j : Nat) (st : VpnState),
      st.lastConnectedProfile = some p → st.isConnected = false →
      st.isConnecting = false → st.reconnectState = .Attempting →
      st.reconnectTimerPending = true → st.reconnectAttempts = j →
      j < env.config.maxRetries → j + k ≤ env.config.maxRetries →
      (iterTimer env k st).lastConnectedProfile = some p ∧
      (iterTimer env k st).isConnected = false ∧
      (iterTimer env k st).isConnecting = false ∧
      (iterTimer env k st).reconnectAttempts = j + k ∧
      ((j + k < env.config.maxRetries →
        (iterTimer env k st).reconnectState = .Attempting ∧
        (iterTimer env k st).reconnectTimerPending = true) ∧
       (j + k = env.config.maxRetries →
        (iterTimer env k st).reconnectState = .MaxRetriesReached ∧
        (iterTimer env k st).reconnectTimerPending = false)) := by
  intro k
  induction k with
  | zero =>
    intro j st hp h1 h2 hA ht hj hjN hjk
    refine ⟨hp, h1, h2, by simpa [iterTimer] using hj, fun _ => ?_, fun hx => ?_⟩
    · exact ⟨by simpa [iterTimer] using hA, by simpa [iterTimer] using ht⟩
    · omega
  | succ k ih =>
    intro j st hp h1 h2 hA ht hj hjN hjk
    have hstep := attemptReconnect_fail_missing env p st hp h1 h2 hmiss
    have hrw : iterTimer env (k + 1) st = iterTimer env k (attemptReconnect env st).1 := rfl
    by_cases hcase : j + 1 < env.config.maxRetries
    · have hne : ¬ (st.reconnectAttempts + 1 ≥ env.config.maxRetries) := by omega
      have hstate : (attemptReconnect env st).1 =
          { st with reconnectTimerPending := true,
                    reconnectAttempts := st.reconnectAttempts + 1 } := by
        rw [hstep, if_neg hne]
      rw [hrw, hstate]
      have hres := ih (j + 1)
        { st with reconnectTimerPending := true, reconnectAttempts := st.reconnectAttempts + 1 }
        (by simp [hp]) (by simp [h1]) (by simp [h2]) (by simp [hA]) (by simp)
        (by simp [hj]) hcase (by omega)
      refine ⟨hres.1, hres.2.1, hres.2.2.1,
        by have := hres.2.2.2.1; omega,
        fun hlt => hres.2.2.2.2.1 (by omega),
        fun heq => hres.2.2.2.2.2 (by omega)⟩
    · have hk0 : k = 0 := by omega
      subst hk0
      have hge : st.reconnectAttempts + 1 ≥ env.config.maxRetries := by omega
      have hstate : (attemptReconnect env st).1 =
          { st with reconnectTimerPending := false,
                    reconnectAttempts := st.reconnectAttempts + 1,
                    reconnectState := .MaxRetriesReached } := by
        rw [hstep, if_pos hge]
      rw [hrw, hstate]
      refine ⟨by simpa [iterTimer] using hp, by simpa [iterTimer] using h1,
        by simpa [iterTimer] using h2, by simp [iterTimer, hj],
        fun hlt => absurd hlt (by omega), fun _ => ⟨by simp [iterTimer], by simp [iterTimer]⟩⟩

theorem disconnect_false_state (env : Env) (m : Bool) (st : VpnState)
    (h : (disconnect env m st).1 = false) :
    (disconnect env m st).2.1.isConnected = st.isConnected ∧
    (disconnect env m st).2.1.isConnecting = st.isConnecting := by
  unfold disconnect disconnectKill at *
  cases m <;> cases hs : falsy (savedDisconnectPassword env) <;>
    cases hd : falsy env.disconnectInput <;>
      simp_all [stopAutoReconnect] <;> split_ifs at h ⊢ <;> simp_all

theorem disconnect_nonmanual_fields (env : Env) (st : VpnState) :
    (disconnect env false st).2.1.lastDisconnectWasManual = st.lastDisconnectWasManual ∧
    (disconnect env false st).2.1.reconnectState = st.reconnectState ∧
    (disconnect env false st).2.1.reconnectTimerPending = st.reconnectTimerPending ∧
    (disconnect env false st).2.1.lastConnectedProfile = st.lastConnectedProfile ∧
    (disconnect env false st).2.1.reconnectAttempts = st.reconnectAttempts := by
  unfold disconnect disconnectKill
  cases hs : falsy (savedDisconnectPassword env) <;> simp_all <;> split_ifs <;> simp_all

theorem startAutoReconnect_fields (env : Env) (st : VpnState) :
    (startAutoReconnect env st).1.isConnected = st.isConnected ∧
    (startAutoReconnect env st).1.isConnecting = st.isConnecting ∧
    (startAutoReconnect env st).1.lastDisconnectWasManual = st.lastDisconnectWasManual ∧
    (startAutoReconnect env st).1.lastConnectedProfile = st.lastConnectedProfile := by
  unfold startAutoReconnect scheduleReconnectTimer
  split_ifs <;> simp

theorem startAutoReconnect_manual (env : Env) (st : VpnState)
    (h : st.lastDisconnectWasManual = true) :
    startAutoReconnect env st = (st, []) := by
  simp [startAutoReconnect, h]

theorem connectMain_isConnected (env : Env) (p : VpnProfile) (b : Bool) (st1 : VpnState)
    (effs0 : List Effect) :
    (connectMain env p b st1 effs0).2.1.isConnected = st1.isConnected := by
  unfold connectMain acquireSudo acquireVpnPassword
  cases b <;> cases hsaml : p.useSamlLogin <;>
    cases hs : falsy env.secrets.sudoPassword <;>
    cases hv : falsy (env.secrets.vpnPassword p.id) <;>
    cases hsi : falsy env.sudoInput <;> cases hvi : falsy env.vpnInput <;>
    cases hss : env.saveSudo <;> cases hsv : env.saveVpn <;>
    simp_all [resetAutoReconnectState, stopAutoReconnect]

theorem connectMain_effects_prefix (env : Env) (p : VpnProfile) (b : Bool) (st1 : VpnState)
    (effs0 : List Effect) :
    ∃ tail, (connectMain env p b st1 effs0).2.2 = effs0 ++ tail := by
  unfold connectMain acquireSudo acquireVpnPassword
  cases b <;> cases hsaml : p.useSamlLogin <;>
    cases hs : falsy env.secrets.sudoPassword <;>
    cases hv : falsy (env.secrets.vpnPassword p.id) <;>
    cases hsi : falsy env.sudoInput <;> cases hvi : falsy env.vpnInput <;>
    cases hss : env.saveSudo <;> cases hsv : env.saveVpn <;>
    simp_all

theorem connectMain_reconnect_fields (env : Env) (p : VpnProfile) (st1 : VpnState)
    (effs0 : List Effect) :
    (connectMain env p true st1 effs0).2.1.lastDisconnectWasManual = st1.lastDisconnectWasManual ∧
    (connectMain env p true st1 effs0).2.1.reconnectState = st1.reconnectState ∧
    (connectMain env p true st1 effs0).2.1.reconnectAttempts = st1.reconnectAttempts ∧
    (connectMain env p true st1 effs0).2.1.reconnectTimerPending = st1.reconnectTimerPending ∧
    (connectMain env p true st1 effs0).2.1.lastConnectedProfile = st1.lastConnectedProfile := by
  unfold connectMain
  rw [acquireSudo_reconnect, acquireVpnPassword_reconnect]
  cases hsaml : p.useSamlLogin <;>
    cases hs : falsy env.secrets.sudoPassword <;>
    cases hv : falsy (env.secrets.vpnPassword p.id) <;> simp_all

theorem connect_reconnect_fields (env : Env) (p : VpnProfile) (st : VpnState) :
    (connect env p true st).2.1.lastDisconnectWasManual = st.lastDisconnectWasManual ∧
    (connect env p true st).2.1.reconnectState = st.reconnectState ∧
    (connect env p true st).2.1.reconnectAttempts = st.reconnectAttempts ∧
    (connect env p true st).2.1.lastConnectedProfile = st.lastConnectedProfile := by
  unfold connect
  by_cases hc : (st.isConnected || st.isConnecting) = true
  · rw [if_pos hc]
    have hd1 := disconnect_nonmanual_fields env st
    by_cases hd : (disconnect env false st).1 = true
    · rw [if_pos hd]
      have hm := connectMain_reconnect_fields env p (disconnect env false st).2.1
        ((disconnect env false st).2.2 ++ [Effect.settleDelay 1000])
      exact ⟨by rw [hm.1, hd1.1], by rw [hm.2.1, hd1.2.1],
        by rw [hm.2.2.1, hd1.2.2.2.2], by rw [hm.2.2.2.2, hd1.2.2.2.1]⟩
    · rw [if_neg hd]
      exact ⟨hd1.1, hd1.2.1, hd1.2.2.2.2, hd1.2.2.2.1⟩
  · rw [if_neg hc]
    have hm := connectMain_reconnect_fields env p st []
    exact ⟨hm.1, hm.2.1, hm.2.2.1, hm.2.2.2.2⟩

theorem ConnInv.of_eq {st st2 : VpnState} (h : ConnInv st)
    (h1 : st2.isConnected = st.isConnected) (h2 : st2.isConnecting = st.isConnecting) :
    ConnInv st2 :=
  fun hc => h ⟨by rw [← h2]; exact hc.1, by rw [← h1]; exact hc.2⟩

theorem connectMain_inv (env : Env) (p : VpnProfile) (b : Bool) (st1 : VpnState)
    (effs0 : List Effect) (h : st1.isConnected = false) :
    ConnInv (connectMain env p b st1 effs0).2.1 := by
  intro hcontra
  rw [connectMain_isConnected env p b st1 effs0, h] at hcontra
  exact absurd hcontra.2 (by simp)

theorem connect_inv (env : Env) (p : VpnProfile) (b : Bool) (st : VpnState)
    (h : ConnInv st) : ConnInv (connect env p b st).2.1 := by
  unfold connect
  by_cases hc : (st.isConnected || st.isConnecting) = true
  · rw [if_pos hc]
    by_cases hd : (disconnect env false st).1 = true
    · rw [if_pos hd]
      exact connectMain_inv env p b _ _ (disconnect_true_state env false st hd).1
    · rw [if_neg hd]
      have hf := disconnect_false_state env false st (by simpa using hd)
      exact ConnInv.of_eq h hf.1 hf.2
  · rw [if_neg hc]
    simp only [Bool.or_eq_true, not_or, Bool.not_eq_true] at hc
    exact connectMain_inv env p b st [] hc.1

theorem disconnect_inv (env : Env) (m : Bool) (st : VpnState)
    (h : ConnInv st) : ConnInv (disconnect env m st).2.1 := by
  by_cases hd : (disconnect env m st).1 = true
  · have hs := disconnect_true_state env m st hd
    intro hcontra
    rw [hs.1] at hcontra
    exact absurd hcontra.2 (by simp)
  · have hf := disconnect_false_state env m st (by simpa using hd)
    exact ConnInv.of_eq h hf.1 hf.2

theorem checkVPNStatus_inv (env : Env) (pr : Bool) (st : VpnState)
    (h : ConnInv st) : ConnInv (checkVPNStatus env pr st).1 := by
  unfold checkVPNStatus
  cases pr <;> cases h1 : st.isConnected <;> cases hm : st.lastDisconnectWasManual <;>
    cases hma : env.metricsActive <;> cases hap : env.activeProfile <;>
    simp_all [ConnInv, stopAutoReconnect, startAutoReconnect, scheduleReconnectTimer] <;>
    split_ifs <;> simp_all

theorem processClose_inv (env : Env) (c : Int) (st : VpnState)
    (h : ConnInv st) : ConnInv (processClose env c st).1 := by
  unfold processClose
  cases h1 : st.isConnected <;> cases h2 : st.isConnecting <;>
    cases hm : st.lastDisconnectWasManual <;>
    simp_all [ConnInv, startAutoReconnect, scheduleReconnectTimer] <;>
    split_ifs <;> simp_all

theorem attemptReconnect_inv (env : Env) (st : VpnState)
    (h : ConnInv st) : ConnInv (attemptReconnect env st).1 := by
  unfold attemptReconnect
  cases hp : st.lastConnectedProfile with
  | none =>
    simp only [hp]
    exact ConnInv.of_eq h (by simp) (by simp)
  | some p =>
    simp only [hp]
    have hci := connect_inv env p true
      { st with reconnectTimerPending := false,
                reconnectAttempts := st.reconnectAttempts + 1,
                lastConnectedProfile := some p }
      (ConnInv.of_eq h (by simp) (by simp))
    split_ifs with hc1 hc2
    · exact ConnInv.of_eq hci (by simp) (by simp)
    · exact ConnInv.of_eq hci (by simp) (by simp)
    · simp only [scheduleReconnectTimer]
      exact ConnInv.of_eq hci (by simp) (by simp)

theorem saveCertificateAndReconnect_inv (env : Env) (pm : Option (List VpnProfile))
    (p : VpnProfile) (d : String) (b : Bool) (st : VpnState)
    (h : ConnInv st) : ConnInv (saveCertificateAndReconnect env pm p d b st).2.1 := by
  unfold saveCertificateAndReconnect
  cases pm with
  | none => exact ConnInv.of_eq h (by simp [resetCertificateTrustState]) (by simp [resetCertificateTrustState])
  | some profiles =>
    cases hu : updateProfile profiles { p with trustedCert := some d } with
    | none =>
      simp only [hu]
      exact ConnInv.of_eq h (by simp [resetCertificateTrustState])
        (by simp [resetCertificateTrustState])
    | some profiles2 =>
      simp only [hu]
      have hci := connect_inv env { p with trustedCert := some d } b
        { resetCertificateTrustState st with
          currentProcess := none, isConnecting := false, isConnected := false }
        (fun hc => by simp at hc)
      exact ConnInv.of_eq hci (by simp [resetCertificateTrustState])
        (by simp [resetCertificateTrustState])

theorem retryConnection_inv (env : Env) (st : VpnState)
    (h : ConnInv st) : ConnInv (retryConnection env st).2.1 := by
  unfold retryConnection
  cases hp : st.lastConnectedProfile with
  | none => exact h
  | some p =>
    split_ifs with hr
    · exact connect_inv env p false (resetAutoReconnectState st)
        (ConnInv.of_eq h (by simp [resetAutoReconnectState, stopAutoReconnect])
          (by simp [resetAutoReconnectState, stopAutoReconnect]))
    · exact h

theorem stepState_inv (env : Env) (e : Event) (st : VpnState)
    (h : ConnInv st) : ConnInv (stepState env e st) := by
  cases e with
  | connectCmd p b => exact connect_inv env p b st h
  | disconnectCmd m => exact disconnect_inv env m st h
  | sentinel p =>
    intro hc
    simp [stepState, processStdoutSentinel, stopAutoReconnect] at hc
  | procClose c => exact processClose_inv env c st h
  | procError =>
    intro hc
    simp [stepState, processError] at hc
  | probeTick pr => exact checkVPNStatus_inv env pr st h
  | timerFire => exact attemptReconnect_inv env st h
  | retryCmd => exact retryConnection_inv env st h
  | cancelCmd =>
    unfold stepState cancelAutoReconnect
    split_ifs
    · exact h
    · exact ConnInv.of_eq h (by simp [stopAutoReconnect]) (by simp [stopAutoReconnect])
  | certAccept profiles p d b => exact saveCertificateAndReconnect_inv env (some profiles) p d b st h

theorem runEvents_inv (evs : List (Env × Event)) (st : VpnState)
    (h : ConnInv st) : ConnInv (runEvents evs st) := by
  induction evs generalizing st with
  | nil => exact h
  | cons pe rest ih =>
    exact ih (stepState pe.1 pe.2 st) (stepState_inv pe.1 pe.2 st h)

theorem checkVPNStatus_preserves_manual (env : Env) (pr : Bool) (st : VpnState)
    (h1 : st.lastDisconnectWasManual = true) (h2 : st.reconnectState ≠ .Attempting) :
    (checkVPNStatus env pr st).1.lastDisconnectWasManual = true ∧
    (checkVPNStatus env pr st).1.reconnectState ≠ .Attempting := by
  unfold checkVPNStatus
  cases pr <;> cases hc : st.isConnected <;>
    cases hma : env.metricsActive <;> cases hap : env.activeProfile <;>
    simp_all [stopAutoReconnect]

theorem processClose_preserves_manual (env : Env) (c : Int) (st : VpnState)
    (h1 : st.lastDisconnectWasManual = true) (h2 : st.reconnectState ≠ .Attempting) :
    (processClose env c st).1.lastDisconnectWasManual = true ∧
    (processClose env c st).1.reconnectState ≠ .Attempting := by
  unfold processClose
  cases hc : st.isConnected <;> cases hcg : st.isConnecting <;>
    split_ifs <;> simp_all

theorem attemptReconnect_preserves_manual (env : Env) (st : VpnState)
    (h1 : st.lastDisconnectWasManual = true) (h2 : st.reconnectState ≠ .Attempting) :
    (attemptReconnect env st).1.lastDisconnectWasManual = true ∧
    (attemptReconnect env st).1.reconnectState ≠ .Attempting := by
  unfold attemptReconnect
  cases hp : st.lastConnectedProfile with
  | none => simp_all
  | some p =>
    simp only [hp]
    have hf := connect_reconnect_fields env p
      { st with reconnectTimerPending := false,
                reconnectAttempts := st.reconnectAttempts + 1,
                lastConnectedProfile := some p }
    have hflag : (connect env p true
        { st with reconnectTimerPending := false,
                  reconnectAttempts := st.reconnectAttempts + 1,
                  lastConnectedProfile := some p }).2.1.lastDisconnectWasManual = true := by
      rw [hf.1]; simpa using h1
    have hstate : (connect env p true
        { st with reconnectTimerPending := false,
                  reconnectAttempts := st.reconnectAttempts + 1,
                  lastConnectedProfile := some p }).2.1.reconnectState ≠ .Attempting := by
      rw [hf.2.1]; simpa using h2
    split_ifs with hc1 hc2
    · exact ⟨by simpa using hflag, by simp⟩
    · exact ⟨by simpa using hflag, by simp⟩
    · exact ⟨by simpa [scheduleReconnectTimer] using hflag,
        by simpa [scheduleReconnectTimer] using hstate⟩

theorem stepState_preserves_manual (env : Env) (e : Event) (st : VpnState)
    (he : isAutoEvent e = true)
    (h1 : st.lastDisconnectWasManual = true) (h2 : st.reconnectState ≠ .Attempting) :
    (stepState env e st).lastDisconnectWasManual = true ∧
    (stepState env e st).reconnectState ≠ .Attempting := by
  cases e with
  | probeTick pr => exact checkVPNStatus_preserves_manual env pr st h1 h2
  | procClose c => exact processClose_preserves_manual env c st h1 h2
  | procError =>
    exact ⟨by simpa [stepState, processError] using h1,
      by simpa [stepState, processError] using h2⟩
  | timerFire => exact attemptReconnect_preserves_manual env st h1 h2
  | connectCmd p b => simp [isAutoEvent] at he
  | disconnectCmd m => simp [isAutoEvent] at he
  | sentinel p => simp [isAutoEvent] at he
  | retryCmd => simp [isAutoEvent] at he
  | cancelCmd => simp [isAutoEvent] at he
  | certAccept profiles p d b => simp [isAutoEvent] at he

theorem runEvents_preserves_manual (evs : List (Env × Event)) (st : VpnState)
    (hall : ∀ pe ∈ evs, isAutoEvent pe.2 = true)
    (h1 : st.lastDisconnectWasManual = true) (h2 : st.reconnectState ≠ .Attempting) :
    (runEvents evs st).lastDisconnectWasManual = true ∧
    (runEvents evs st).reconnectState ≠ .Attempting := by
  induction evs generalizing st with
  | nil => exact ⟨h1, h2⟩
  | cons pe rest ih =>
    have hstep := stepState_preserves_manual pe.1 pe.2 st (hall pe (by simp)) h1 h2
    exact ih (stepState pe.1 pe.2 st)
      (fun q hq => hall q (List.mem_cons_of_mem pe hq)) hstep.1 hstep.2

theorem disconnect_manual_flag (env : Env) (st : VpnState)
    (hc : st.isConnected = true ∨ st.isConnecting = true) :
    (disconnect env true st).2.1.lastDisconnectWasManual = true ∧
    (disconnect env true st).2.1.reconnectState = .Idle := by
  unfold disconnect disconnectKill
  rcases hc with hc | hc <;> cases hs : falsy (savedDisconnectPassword env) <;>
    cases hd : falsy env.disconnectInput <;> simp_all [stopAutoReconnect]

/-! ## Claim theorems -/

/-- C9: when `disconnect` runs with a saved credential available and the
privileged kill command exits with a nonzero code, the failure is only
logged: the local state still transitions to Disconnected, metrics stop, the
status-changed notification fires with `false`, and `disconnect` returns
`true`. -/
theorem disconnect_kill_failure_still_disconnects (env : Env) (m : Bool) (st : VpnState)
    (hc : st.isConnected = true ∨ st.isConnecting = true)
    (hcred : falsy (savedDisconnectPassword env) = false)
    (hkill : env.killExitCode ≠ 0) :
    (disconnect env m st).1 = true ∧
    (disconnect env m st).2.1.isConnected = false ∧
    (disconnect env m st).2.1.isConnecting = false ∧
    Effect.logError ∈ (disconnect env m st).2.2 ∧
    Effect.metricsStop ∈ (disconnect env m st).2.2 ∧
    Effect.statusChanged false ∈ (disconnect env m st).2.2 := by
  have hk : (env.killExitCode == 0) = false := beq_eq_false_iff_ne.mpr hkill
  unfold disconnect disconnectKill
  rcases hc with hc | hc <;> cases m <;> simp_all

/-- Witness for C9 at a concrete connected state and failing kill command. -/
theorem disconnect_kill_failure_still_disconnects_witness :
    (disconnect envKillFail true connectedState).1 = true ∧
    (disconnect envKillFail true connectedState).2.1.isConnected = false ∧
    (disconnect envKillFail true connectedState).2.1.isConnecting = false ∧
    Effect.logError ∈ (disconnect envKillFail true connectedState).2.2 ∧
    Effect.metricsStop ∈ (disconnect envKillFail true connectedState).2.2 ∧
    Effect.statusChanged false ∈ (disconnect envKillFail true connectedState).2.2 :=
  disconnect_kill_failure_still_disconnects envKillFail true connectedState
    (Or.inl rfl) (by decide) (by decide)

/-- C6: an automatic reconnect attempt (`connect` with
`isReconnectAttempt = true`) for a profile with no saved credential (missing
sudo password, or missing VPN password for a non-SAML profile) returns
`false` without any interactive prompt and without spawning a subprocess,
and the attempt still counts: `attemptReconnect` increments the attempt
counter before invoking `connect`. -/
theorem reconnect_missing_credential_fails_fast (env : Env) (p : VpnProfile) (st : VpnState)
    (hmiss : falsy env.secrets.sudoPassword = true ∨
         (p.useSamlLogin = false ∧ falsy (env.secrets.vpnPassword p.id) = true))
    (hp : st.lastConnectedProfile = some p)
    (h1 : st.isConnected = false) (h2 : st.isConnecting = false) :
    (connect env p true st).1 = false ∧
    Effect.promptInput ∉ (connect env p true st).2.2 ∧
    Effect.promptQuickPick ∉ (connect env p true st).2.2 ∧
    (∀ args : List String, Effect.spawnVpn args ∉ (connect env p true st).2.2) ∧
    (attemptReconnect env st).1.reconnectAttempts = st.reconnectAttempts + 1 := by
  have ha := connect_reconnect_missing env p st hmiss
  have hb := connect_reconnect_no_prompt env p st
  have hcou := attemptReconnect_fail_missing env p st hp h1 h2 hmiss
  refine ⟨ha.1, hb.1, hb.2, ha.2, ?_⟩
  rw [hcou]
  split_ifs <;> simp

/-- Witness for C6 at a concrete reconnect-episode state with no saved
credentials. -/
theorem reconnect_missing_credential_fails_fast_witness :
    (connect envNoSecrets sampleProfile true attemptingState).1 = false ∧
    Effect.promptInput ∉ (connect envNoSecrets sampleProfile true attemptingState).2.2 ∧
    Effect.promptQuickPick ∉ (connect envNoSecrets sampleProfile true attemptingState).2.2 ∧
    (∀ args : List String,
      Effect.spawnVpn args ∉ (connect envNoSecrets sampleProfile true attemptingState).2.2) ∧
    (attemptReconnect envNoSecrets attemptingState).1.reconnectAttempts =
      attemptingState.reconnectAttempts + 1 :=
  reconnect_missing_credential_fails_fast envNoSecrets sampleProfile attemptingState
    (Or.inl (by decide)) (by decide) (by decide) (by decide)

/-- C2: with `maxRetries = N`, after `N` consecutive failed automatic
reconnect attempts the reconnect state is the terminal MaxRetriesReached
state with no timer armed; for every `k < N` the counter after `k` attempts
is exactly `k` (never exceeding `N` while attempts are still scheduled), and
from the terminal state a further process-exit event or a probe tick
observing the tunnel gone changes nothing and schedules nothing. -/
theorem reconnect_bounded_max_retries (env : Env) (p : VpnProfile) (st : VpnState)
    (hmiss : falsy env.secrets.sudoPassword = true ∨
         (p.useSamlLogin = false ∧ falsy (env.secrets.vpnPassword p.id) = true))
    (hp : st.lastConnectedProfile = some p) (h1 : st.isConnected = false)
    (h2 : st.isConnecting = false) (hA : st.reconnectState = .Attempting)
    (ht : st.reconnectTimerPending = true) (h0 : st.reconnectAttempts = 0)
    (hN : 0 < env.config.maxRetries)
    (k : Nat) (hk : k < env.config.maxRetries) (env2 : Env) (c : Int) :
    (iterTimer env env.config.maxRetries st).reconnectState = .MaxRetriesReached ∧
    (iterTimer env env.config.maxRetries st).reconnectTimerPending = false ∧
    (iterTimer env env.config.maxRetries st).reconnectAttempts = env.config.maxRetries ∧
    (iterTimer env k st).reconnectAttempts = k ∧
    (iterTimer env k st).reconnectState = .Attempting ∧
    (iterTimer env k st).reconnectTimerPending = true ∧
    processClose env2 c (iterTimer env env.config.maxRetries st) =
      ({ iterTimer env env.config.maxRetries st with currentProcess := none }, []) ∧
    checkVPNStatus env2 false (iterTimer env env.config.maxRetries st) =
      (iterTimer env env.config.maxRetries st, []) := by
  have hfull := iterTimer_fail env p hmiss env.config.maxRetries 0 st hp h1 h2 hA ht h0 hN
    (by omega)
  have hpart := iterTimer_fail env p hmiss k 0 st hp h1 h2 hA ht h0 hN (by omega)
  have hterm := hfull.2.2.2.2.2 (by omega)
  have hatt := hpart.2.2.2.2.1 (by omega)
  refine ⟨hterm.1, hterm.2, by have := hfull.2.2.2.1; omega,
    by have := hpart.2.2.2.1; omega, hatt.1, hatt.2, ?_, ?_⟩
  · exact processClose_idle env2 c _ hfull.2.1 hfull.2.2.1
  · exact checkVPNStatus_absent_idle env2 _ hfull.2.1

/-- Witness for C2 at a concrete environment with `maxRetries = 3` and no
saved credentials, checking the counter after 2 attempts and the terminal
state after 3. -/
theorem reconnect_bounded_max_retries_witness :
    (iterTimer envNoSecrets envNoSecrets.config.maxRetries attemptingState).reconnectState =
      .MaxRetriesReached ∧
    (iterTimer envNoSecrets envNoSecrets.config.maxRetries attemptingState).reconnectTimerPending =
      false ∧
    (iterTimer envNoSecrets envNoSecrets.config.maxRetries attemptingState).reconnectAttempts =
      envNoSecrets.config.maxRetries ∧
    (iterTimer envNoSecrets 2 attemptingState).reconnectAttempts = 2 ∧
    (iterTimer envNoSecrets 2 attemptingState).reconnectState = .Attempting ∧
    (iterTimer envNoSecrets 2 attemptingState).reconnectTimerPending = true ∧
    processClose envSaved 1 (iterTimer envNoSecrets envNoSecrets.config.maxRetries attemptingState) =
      ({ iterTimer envNoSecrets envNoSecrets.config.maxRetries attemptingState with
          currentProcess := none }, []) ∧
    checkVPNStatus envSaved false
        (iterTimer envNoSecrets envNoSecrets.config.maxRetries attemptingState) =
      (iterTimer envNoSecrets envNoSecrets.config.maxRetries attemptingState, []) :=
  reconnect_bounded_max_retries envNoSecrets sampleProfile attemptingState
    (Or.inl (by decide)) (by decide) (by decide) (by decide) (by decide) (by decide)
    (by decide) (by decide) 2 (by decide) envSaved 1


/-- C3: after the Connected state is reached, a manual `disconnect` sets the
manual-disconnect flag and stops any reconnect episode; from that state, any
sequence of automatic events (probe ticks, process exit or error, timer
fires) keeps the flag set and never reaches the Attempting state, because
`startAutoReconnect` is a no-op whenever the last disconnect was manual. -/
theorem manual_disconnect_suppresses_reconnect (env : Env) (st : VpnState)
    (hc : st.isConnected = true)
    (evs : List (Env × Event)) (hall : ∀ pe ∈ evs, isAutoEvent pe.2 = true)
    (env2 : Env) (st2 : VpnState) (hm : st2.lastDisconnectWasManual = true) :
    (disconnect env true st).2.1.lastDisconnectWasManual = true ∧
    (disconnect env true st).2.1.reconnectState = .Idle ∧
    (runEvents evs (disconnect env true st).2.1).lastDisconnectWasManual = true ∧
    (runEvents evs (disconnect env true st).2.1).reconnectState ≠ .Attempting ∧
    startAutoReconnect env2 st2 = (st2, []) := by
  have hd := disconnect_manual_flag env st (Or.inl hc)
  have htr := runEvents_preserves_manual evs (disconnect env true st).2.1 hall hd.1
    (by rw [hd.2]; simp)
  exact ⟨hd.1, hd.2, htr.1, htr.2, startAutoReconnect_manual env2 st2 hm⟩

/-- Witness for C3: a manual disconnect from a concrete connected state,
followed by a process exit, a probe tick observing the tunnel gone, and a
stale timer fire. -/
theorem manual_disconnect_suppresses_reconnect_witness :
    (disconnect envSaved true connectedState).2.1.lastDisconnectWasManual = true ∧
    (disconnect envSaved true connectedState).2.1.reconnectState = .Idle ∧
    (runEvents [(envSaved, Event.procClose 1), (envSaved, Event.probeTick false),
        (envSaved, Event.timerFire)]
      (disconnect envSaved true connectedState).2.1).lastDisconnectWasManual = true ∧
    (runEvents [(envSaved, Event.procClose 1), (envSaved, Event.probeTick false),
        (envSaved, Event.timerFire)]
      (disconnect envSaved true connectedState).2.1).reconnectState ≠ .Attempting ∧
    startAutoReconnect envSaved (disconnect envSaved true connectedState).2.1 =
      ((disconnect envSaved true connectedState).2.1, []) := by
  refine manual_disconnect_suppresses_reconnect envSaved connectedState (by decide)
    [(envSaved, Event.procClose 1), (envSaved, Event.probeTick false),
      (envSaved, Event.timerFire)] ?_ envSaved
    (disconnect envSaved true connectedState).2.1 (by decide)
  intro pe hpe
  simp only [List.mem_cons, List.not_mem_nil, or_false] at hpe
  rcases hpe with h | h | h <;> subst h <;> rfl

/-- C10: `connect` resolves `true` as soon as the subprocess is spawned,
before any success sentinel is observed: a `true` result leaves the state
Connecting (not Connected) with the spawn in the trace; and
`attemptReconnect` treats such a spawned-but-unconfirmed `connect` as a
successful reconnect, resetting the reconnect state to Idle and the attempt
counter to 0. -/
theorem connect_resolves_on_spawn (env : Env) (p : VpnProfile) (b : Bool) (st : VpnState)
    (h : (connect env p b st).1 = true)
    (env2 : Env) (st2 : VpnState) (p2 : VpnProfile)
    (hp2 : st2.lastConnectedProfile = some p2)
    (hc2 : (connect env2 p2 true
      { st2 with reconnectTimerPending := false,
                 reconnectAttempts := st2.reconnectAttempts + 1,
                 lastConnectedProfile := some p2 }).1 = true) :
    (connect env p b st).2.1.isConnecting = true ∧
    (connect env p b st).2.1.isConnected = false ∧
    Effect.spawnVpn (spawnArgs p) ∈ (connect env p b st).2.2 ∧
    (attemptReconnect env2 st2).1.reconnectState = .Idle ∧
    (attemptReconnect env2 st2).1.reconnectAttempts = 0 := by
  have ha := connect_true_spawned env p b st h
  have hb : (attemptReconnect env2 st2).1.reconnectState = .Idle ∧
      (attemptReconnect env2 st2).1.reconnectAttempts = 0 := by
    unfold attemptReconnect
    simp only [hp2]
    rw [if_pos hc2]
    simp
  exact ⟨ha.1, ha.2.1, ha.2.2, hb.1, hb.2⟩

/-- Witness for C10: a reconnect-episode `connect` with saved credentials
spawns and resolves `true` while still Connecting, and the surrounding
`attemptReconnect` counts it as success. -/
theorem connect_resolves_on_spawn_witness :
    (connect envSaved sampleProfile true attemptingState).2.1.isConnecting = true ∧
    (connect envSaved sampleProfile true attemptingState).2.1.isConnected = false ∧
    Effect.spawnVpn (spawnArgs sampleProfile) ∈
      (connect envSaved sampleProfile true attemptingState).2.2 ∧
    (attemptReconnect envSaved attemptingState).1.reconnectState = .Idle ∧
    (attemptReconnect envSaved attemptingState).1.reconnectAttempts = 0 :=
  connect_resolves_on_spawn envSaved sampleProfile true attemptingState (by decide)
    envSaved attemptingState sampleProfile (by decide) (by decide)

/-- C4: the probe outcome wins over the held state in both directions.  A
probe tick observing the interface absent while the state is Connected
transitions to Disconnected, stops metrics, fires the status-changed
notification with `false`, and invokes the reconnect controller unless the
last disconnect was manual; a probe tick observing the interface present
while the state is not Connected transitions to Connected, clears the
reconnect episode, fires the notification with `true`, and starts metrics
when none are active and an active profile exists. -/
theorem probe_authority (env : Env) (st stp : VpnState)
    (hA : st.isConnected = true) (hB : stp.isConnected = false) :
    ((checkVPNStatus env false st).1.isConnected = false ∧
     (checkVPNStatus env false st).1.isConnecting = false ∧
     Effect.metricsStop ∈ (checkVPNStatus env false st).2 ∧
     Effect.statusChanged false ∈ (checkVPNStatus env false st).2 ∧
     (st.lastDisconnectWasManual = true →
       checkVPNStatus env false st =
         ({ st with isConnected := false, isConnecting := false },
           [Effect.metricsStop, Effect.statusChanged false])) ∧
     (st.lastDisconnectWasManual = false →
       checkVPNStatus env false st =
         ((startAutoReconnect env { st with isConnected := false, isConnecting := false }).1,
           [Effect.metricsStop, Effect.statusChanged false] ++
             (startAutoReconnect env
               { st with isConnected := false, isConnecting := false }).2))) ∧
    ((checkVPNStatus env true stp).1.isConnected = true ∧
     (checkVPNStatus env true stp).1.isConnecting = false ∧
     (checkVPNStatus env true stp).1.reconnectState = .Idle ∧
     (checkVPNStatus env true stp).1.reconnectTimerPending = false ∧
     Effect.statusChanged true ∈ (checkVPNStatus env true stp).2 ∧
     (env.metricsActive = false → env.activeProfile.isSome = true →
       Effect.metricsStart ∈ (checkVPNStatus env true stp).2)) := by
  constructor
  · have hsf := startAutoReconnect_fields env
      { st with isConnected := false, isConnecting := false }
    unfold checkVPNStatus
    cases hm : st.lastDisconnectWasManual <;>
      simp_all [stopAutoReconnect]
  · unfold checkVPNStatus
    cases hma : env.metricsActive <;> cases hap : env.activeProfile <;>
      simp_all [stopAutoReconnect]

/-- Witness for C4 at concrete connected and disconnected states. -/
theorem probe_authority_witness :
    ((checkVPNStatus envSaved false connectedState).1.isConnected = false ∧
     (checkVPNStatus envSaved false connectedState).1.isConnecting = false ∧
     Effect.metricsStop ∈ (checkVPNStatus envSaved false connectedState).2 ∧
     Effect.statusChanged false ∈ (checkVPNStatus envSaved false connectedState).2 ∧
     (connectedState.lastDisconnectWasManual = true →
       checkVPNStatus envSaved false connectedState =
         ({ connectedState with isConnected := false, isConnecting := false },
           [Effect.metricsStop, Effect.statusChanged false])) ∧
     (connectedState.lastDisconnectWasManual = false →
       checkVPNStatus envSaved false connectedState =
         ((startAutoReconnect envSaved
             { connectedState with isConnected := false, isConnecting := false }).1,
           [Effect.metricsStop, Effect.statusChanged false] ++
             (startAutoReconnect envSaved
               { connectedState with isConnected := false, isConnecting := false }).2))) ∧
    ((checkVPNStatus envSaved true initialState).1.isConnected = true ∧
     (checkVPNStatus envSaved true initialState).1.isConnecting = false ∧
     (checkVPNStatus envSaved true initialState).1.reconnectState = .Idle ∧
     (checkVPNStatus envSaved true initialState).1.reconnectTimerPending = false ∧
     Effect.statusChanged true ∈ (checkVPNStatus envSaved true initialState).2 ∧
     (envSaved.metricsActive = false → envSaved.activeProfile.isSome = true →
       Effect.metricsStart ∈ (checkVPNStatus envSaved true initialState).2)) :=
  probe_authority envSaved connectedState initialState rfl rfl

/-- C1: for every sequence of events from the initial state, at most one of
the Connecting, Connected and Reconnecting display states holds; and a
`connect` issued while a session is connected or connecting first awaits a
full non-manual `disconnect` of the current session followed by a settle
delay before any spawn (the teardown trace itself contains no VPN spawn and
ends with no tracked subprocess), while a failed teardown makes `connect`
return `false` with no spawn at all. -/
theorem vpn_mutual_exclusion_and_teardown (env : Env) (p : VpnProfile) (b : Bool)
    (st : VpnState) (evs : List (Env × Event))
    (hbusy : st.isConnected = true ∨ st.isConnecting = true) :
    (¬(showsConnecting (runEvents evs initialState) ∧
       showsConnected (runEvents evs initialState)) ∧
     ¬(showsReconnecting (runEvents evs initialState) ∧
       showsConnected (runEvents evs initialState)) ∧
     ¬(showsConnecting (runEvents evs initialState) ∧
       showsReconnecting (runEvents evs initialState))) ∧
    ((disconnect env false st).1 = false →
      connect env p b st =
        (false, (disconnect env false st).2.1,
          (disconnect env false st).2.2 ++ [Effect.logError])) ∧
    ((disconnect env false st).1 = true →
      (disconnect env false st).2.1.currentProcess = none ∧
      connect env p b st = connectMain env p b (disconnect env false st).2.1
        ((disconnect env false st).2.2 ++ [Effect.settleDelay 1000]) ∧
      ∃ tail, (connect env p b st).2.2 =
        (disconnect env false st).2.2 ++ [Effect.settleDelay 1000] ++ tail) ∧
    (∀ args : List String, Effect.spawnVpn args ∉ (disconnect env false st).2.2) := by
  have hinv : ConnInv (runEvents evs initialState) :=
    runEvents_inv evs initialState (by intro hcontra; simp [initialState] at hcontra)
  have hcond : (st.isConnected || st.isConnecting) = true := by
    rcases hbusy with h | h <;> simp [h]
  refine ⟨⟨?_, ?_, ?_⟩, ?_, ?_, disconnect_no_spawnVpn env false st⟩
  · intro ⟨h1, h2⟩
    exact hinv ⟨h1.1, h2⟩
  · intro ⟨h1, h2⟩
    exact hinv ⟨h1.1, h2⟩
  · intro ⟨h1, h2⟩
    exact h1.2 h2.2
  · intro hd
    unfold connect
    rw [if_pos hcond, if_neg (by simp [hd])]
  · intro hd
    refine ⟨(disconnect_true_state env false st hd).2.2, ?_, ?_⟩
    · unfold connect
      rw [if_pos hcond, if_pos hd]
    · unfold connect
      rw [if_pos hcond, if_pos hd]
      rcases connectMain_effects_prefix env p b (disconnect env false st).2.1
        ((disconnect env false st).2.2 ++ [Effect.settleDelay 1000]) with ⟨tail, htail⟩
      exact ⟨tail, by rw [htail]⟩

/-- Witness for C1: a concrete profile-switch while connected, and a
concrete event trace connect-sentinel-probe. -/
theorem vpn_mutual_exclusion_and_teardown_witness :
    (¬(showsConnecting (runEvents
          [(envSaved, Event.connectCmd sampleProfile false),
           (envSaved, Event.sentinel sampleProfile),
           (envSaved, Event.probeTick true)] initialState) ∧
       showsConnected (runEvents
          [(envSaved, Event.connectCmd sampleProfile false),
           (envSaved, Event.sentinel sampleProfile),
           (envSaved, Event.probeTick true)] initialState)) ∧
     ¬(showsReconnecting (runEvents
          [(envSaved, Event.connectCmd sampleProfile false),
           (envSaved, Event.sentinel sampleProfile),
           (envSaved, Event.probeTick true)] initialState) ∧
       showsConnected (runEvents
          [(envSaved, Event.connectCmd sampleProfile false),
           (envSaved, Event.sentinel sampleProfile),
           (envSaved, Event.probeTick true)] initialState)) ∧
     ¬(showsConnecting (runEvents
          [(envSaved, Event.connectCmd sampleProfile false),
           (envSaved, Event.sentinel sampleProfile),
           (envSaved, Event.probeTick true)] initialState) ∧
       showsReconnecting (runEvents
          [(envSaved, Event.connectCmd sampleProfile false),
           (envSaved, Event.sentinel sampleProfile),
           (envSaved, Event.probeTick true)] initialState))) ∧
    ((disconnect envSaved false connectedState).1 = false →
      connect envSaved sampleProfile false connectedState =
        (false, (disconnect envSaved false connectedState).2.1,
          (disconnect envSaved false connectedState).2.2 ++ [Effect.logError])) ∧
    ((disconnect envSaved false connectedState).1 = true →
      (disconnect envSaved false connectedState).2.1.currentProcess = none ∧
      connect envSaved sampleProfile false connectedState =
        connectMain envSaved sampleProfile false
          (disconnect envSaved false connectedState).2.1
          ((disconnect envSaved false connectedState).2.2 ++ [Effect.settleDelay 1000]) ∧
      ∃ tail, (connect envSaved sampleProfile false connectedState).2.2 =
        (disconnect envSaved false connectedState).2.2 ++ [Effect.settleDelay 1000] ++ tail) ∧
    (∀ args : List String,
      Effect.spawnVpn args ∉ (disconnect envSaved false connectedState).2.2) :=
  vpn_mutual_exclusion_and_teardown envSaved sampleProfile false connectedState
    [(envSaved, Event.connectCmd sampleProfile false),
     (envSaved, Event.sentinel sampleProfile),
     (envSaved, Event.probeTick true)] (Or.inl rfl)

theorem replaceFirstById_find (l : List VpnProfile) (p : VpnProfile)
    (h : l.any (fun q => q.id == p.id) = true) :
    (replaceFirstById l p).find? (fun q => q.id == p.id) = some p := by
  induction l with
  | nil => simp at h
  | cons a rest ih =>
    cases hb : (a.id == p.id) with
    | true =>
      simp only [replaceFirstById, hb, if_true]
      rw [List.find?_cons_of_pos _ (by simp)]
    | false =>
      simp only [replaceFirstById, hb, Bool.false_eq_true, if_false]
      rw [List.find?_cons_of_neg _ (by simp [hb])]
      apply ih
      rw [List.any_cons, hb] at h
      simpa using h

theorem spawnArgs_trustedCert (p : VpnProfile) (d : String)
    (hcert : p.trustedCert = some d) (hd : d ≠ "") :
    List.IsInfix ["--trusted-cert", d] (spawnArgs p) := by
  unfold spawnArgs
  have hf : falsy p.trustedCert = false := by
    simp [falsy, hcert]
    exact hd
  rw [hf]
  refine ⟨["-S", "openfortivpn",
    if p.port == "" then p.host else p.host ++ ":" ++ p.port, "-u", p.username],
    if p.useSamlLogin then ["--saml-login"] else [], ?_⟩
  simp [hcert]

/-- C8: accepting a certificate trust prompt with digest `d` for a stored
profile updates the profile store so that the profile carries
`trustedCert = d`, kills any live subprocess, waits a settle delay, and
re-invokes `connect` with the updated profile and the original reconnect
flag; and every `connect` that spawns for a profile with a pinned
certificate passes `--trusted-cert <digest>` in the subprocess argument
list. -/
theorem certificate_trust_persists (env : Env) (profiles : List VpnProfile)
    (profile : VpnProfile) (d : String) (b : Bool) (st : VpnState)
    (hmem : profiles.any (fun q => q.id == profile.id) = true)
    (env2 : Env) (p2 : VpnProfile) (b2 : Bool) (st2 : VpnState)
    (hcert : p2.trustedCert = some d) (hd : d ≠ "")
    (hconn : (connect env2 p2 b2 st2).1 = true) :
    (saveCertificateAndReconnect env (some profiles) profile d b st).1 =
      some (replaceFirstById profiles { profile with trustedCert := some d }) ∧
    (replaceFirstById profiles { profile with trustedCert := some d }).find?
        (fun q => q.id == profile.id) = some { profile with trustedCert := some d } ∧
    (st.currentProcess.isSome = true →
      Effect.killCurrentProcess ∈
        (saveCertificateAndReconnect env (some profiles) profile d b st).2.2) ∧
    (saveCertificateAndReconnect env (some profiles) profile d b st).2.1 =
      (connect env { profile with trustedCert := some d } b
        { resetCertificateTrustState st with currentProcess := none, isConnecting := false, isConnected := false }).2.1 ∧
    (saveCertificateAndReconnect env (some profiles) profile d b st).2.2 =
      (if st.currentProcess.isSome then [Effect.killCurrentProcess] else [])
        ++ [Effect.settleDelay 1000]
        ++ (connect env { profile with trustedCert := some d } b
            { resetCertificateTrustState st with currentProcess := none, isConnecting := false, isConnected := false }).2.2 ∧
    Effect.spawnVpn (spawnArgs p2) ∈ (connect env2 p2 b2 st2).2.2 ∧
    List.IsInfix ["--trusted-cert", d] (spawnArgs p2) := by
  have hup : updateProfile profiles { profile with trustedCert := some d } =
      some (replaceFirstById profiles { profile with trustedCert := some d }) := by
    unfold updateProfile
    rw [if_pos (by simpa using hmem)]
  have hfind := replaceFirstById_find profiles { profile with trustedCert := some d }
    (by simpa using hmem)
  have hsp := connect_true_spawned env2 p2 b2 st2 hconn
  simp only [saveCertificateAndReconnect]
  rw [hup]
  refine ⟨rfl, by simpa using hfind, ?_, ?_, ?_, hsp.2.2, spawnArgs_trustedCert p2 d hcert hd⟩
  · intro hps
    simp [resetCertificateTrustState, hps]
  · simp [resetCertificateTrustState]
  · simp [resetCertificateTrustState]

/-- Witness for C8 at a concrete profile store, digest and re-connect. -/
theorem certificate_trust_persists_witness :
    (saveCertificateAndReconnect envSaved (some [sampleProfile]) sampleProfile "d1ge5t"
        false connectedState).1 =
      some (replaceFirstById [sampleProfile]
        { sampleProfile with trustedCert := some "d1ge5t" }) ∧
    (replaceFirstById [sampleProfile]
        { sampleProfile with trustedCert := some "d1ge5t" }).find?
        (fun q => q.id == sampleProfile.id) =
      some { sampleProfile with trustedCert := some "d1ge5t" } ∧
    (connectedState.currentProcess.isSome = true →
      Effect.killCurrentProcess ∈
        (saveCertificateAndReconnect envSaved (some [sampleProfile]) sampleProfile "d1ge5t"
          false connectedState).2.2) ∧
    (saveCertificateAndReconnect envSaved (some [sampleProfile]) sampleProfile "d1ge5t"
        false connectedState).2.1 =
      (connect envSaved { sampleProfile with trustedCert := some "d1ge5t" } false
        { resetCertificateTrustState connectedState with currentProcess := none, isConnecting := false, isConnected := false }).2.1 ∧
    (saveCertificateAndReconnect envSaved (some [sampleProfile]) sampleProfile "d1ge5t"
        false connectedState).2.2 =
      (if connectedState.currentProcess.isSome then [Effect.killCurrentProcess] else [])
        ++ [Effect.settleDelay 1000]
        ++ (connect envSaved { sampleProfile with trustedCert := some "d1ge5t" } false
            { resetCertificateTrustState connectedState with currentProcess := none, isConnecting := false, isConnected := false }).2.2 ∧
    Effect.spawnVpn (spawnArgs { sampleProfile with trustedCert := some "d1ge5t" }) ∈
      (connect envSaved { sampleProfile with trustedCert := some "d1ge5t" } false
        initialState).2.2 ∧
    List.IsInfix ["--trusted-cert", "d1ge5t"]
      (spawnArgs { sampleProfile with trustedCert := some "d1ge5t" }) :=
  certificate_trust_persists envSaved [sampleProfile] sampleProfile "d1ge5t" false
    connectedState (by decide) envSaved
    { sampleProfile with trustedCert := some "d1ge5t" } false initialState
    rfl (by decide) (by decide)

theorem connect_manual_missing_sudo_prompts (env : Env) (p : VpnProfile) (st : VpnState)
    (h1 : st.isConnected = false) (h2 : st.isConnecting = false)
    (hmiss : falsy env.secrets.sudoPassword = true) :
    Effect.promptInput ∈ (connect env p false st).2.2 := by
  rw [connect_not_connected env p false st h1 h2]
  unfold connectMain acquireSudo acquireVpnPassword
  cases hsaml : p.useSamlLogin <;>
    cases hsi : falsy env.sudoInput <;>
    cases hv : falsy (env.secrets.vpnPassword p.id) <;>
    cases hvi : falsy env.vpnInput <;>
    cases hss : env.saveSudo <;> cases hsv : env.saveVpn <;>
    simp_all

/-- Counterexample for C5: an automatic scheduled Connect execution with no
saved sudo password presents an interactive input prompt, contradicting the
claim that a scheduled connect never prompts and fails fast on a missing
saved credential. -/
theorem schedule_connect_prompts_counterexample :
    Effect.promptInput ∈
      (executeSchedule envNoSecrets ⟨5, 36000⟩ [sampleProfile] dailySchedule false
        initialState).2.2.2 := by decide

/-- C5 (amended): a scheduled Connect execution dispatches to `connect` with
`isReconnectAttempt = false`, exactly as a manual connect: it uses the saved
profile, failing fast with only a logged error when the profile id is not
found; but when the saved sudo credential is absent it presents an
interactive prompt just as a manual connect would, rather than failing
fast. -/
theorem schedule_connect_dispatches_as_manual (env : Env) (now : DateTime)
    (profiles : List VpnProfile) (schedule : VpnSchedule) (isManual : Bool) (st : VpnState)
    (htype : schedule.type = .Connect)
    (h1 : st.isConnected = false) (h2 : st.isConnecting = false) :
    (profiles.find? (fun p => p.id == schedule.profileId) = none →
      executeSchedule env now profiles schedule isManual st =
        (false, st, schedule, [Effect.logError])) ∧
    (∀ profile, profiles.find? (fun p => p.id == schedule.profileId) = some profile →
      (executeSchedule env now profiles schedule isManual st).1 =
        (connect env profile false st).1 ∧
      (executeSchedule env now profiles schedule isManual st).2.1 =
        (connect env profile false st).2.1 ∧
      ((connect env profile false st).1 = true →
        (executeSchedule env now profiles schedule isManual st).2.2.2 =
          (connect env profile false st).2.2) ∧
      ((connect env profile false st).1 = false →
        (executeSchedule env now profiles schedule isManual st).2.2.2 =
          (connect env profile false st).2.2 ++ [Effect.logError]) ∧
      (falsy env.secrets.sudoPassword = true →
        Effect.promptInput ∈ (executeSchedule env now profiles schedule isManual st).2.2.2)) := by
  constructor
  · intro hfind
    simp [executeSchedule, htype, hfind]
  · intro profile hfind
    have hprompt := connect_manual_missing_sudo_prompts env profile st h1 h2
    by_cases hc : (connect env profile false st).1 = true
    · simp [executeSchedule, htype, hfind, hc, finishSchedule]
      intro hmiss
      exact hprompt hmiss
    · have hc2 : (connect env profile false st).1 = false := by simpa using hc
      simp [executeSchedule, htype, hfind, hc2, finishSchedule]
      intro hmiss
      exact hprompt hmiss

/-- Witness for the amended C5 at a concrete daily Connect schedule with no
saved credentials. -/
theorem schedule_connect_dispatches_as_manual_witness :
    (([sampleProfile] : List VpnProfile).find?
        (fun p => p.id == dailySchedule.profileId) = none →
      executeSchedule envNoSecrets ⟨5, 36000⟩ [sampleProfile] dailySchedule false
          initialState =
        (false, initialState, dailySchedule, [Effect.logError])) ∧
    (∀ profile, ([sampleProfile] : List VpnProfile).find?
        (fun p => p.id == dailySchedule.profileId) = some profile →
      (executeSchedule envNoSecrets ⟨5, 36000⟩ [sampleProfile] dailySchedule false
          initialState).1 = (connect envNoSecrets profile false initialState).1 ∧
      (executeSchedule envNoSecrets ⟨5, 36000⟩ [sampleProfile] dailySchedule false
          initialState).2.1 = (connect envNoSecrets profile false initialState).2.1 ∧
      ((connect envNoSecrets profile false initialState).1 = true →
        (executeSchedule envNoSecrets ⟨5, 36000⟩ [sampleProfile] dailySchedule false
          initialState).2.2.2 = (connect envNoSecrets profile false initialState).2.2) ∧
      ((connect envNoSecrets profile false initialState).1 = false →
        (executeSchedule envNoSecrets ⟨5, 36000⟩ [sampleProfile] dailySchedule false
          initialState).2.2.2 =
          (connect envNoSecrets profile false initialState).2.2 ++ [Effect.logError]) ∧
      (falsy envNoSecrets.secrets.sudoPassword = true →
        Effect.promptInput ∈
          (executeSchedule envNoSecrets ⟨5, 36000⟩ [sampleProfile] dailySchedule false
            initialState).2.2.2)) :=
  schedule_connect_dispatches_as_manual envNoSecrets ⟨5, 36000⟩ [sampleProfile]
    dailySchedule false initialState rfl rfl rfl

theorem find?_sorted_some (cur : Nat) (l : List Nat) (hs : List.Sorted (· ≤ ·) l)
    (w : Nat) (hw : l.find? (fun d => cur < d) = some w) :
    w ∈ l ∧ cur < w ∧ ∀ x ∈ l, cur < x → w ≤ x := by
  induction l with
  | nil => simp at hw
  | cons a rest ih =>
    rw [List.sorted_cons] at hs
    by_cases ha : cur < a
    · rw [List.find?_cons_of_pos _ (by simpa using ha)] at hw
      obtain rfl : a = w := by simpa using hw
      refine ⟨by simp, ha, fun x hx _ => ?_⟩
      rcases List.mem_cons.mp hx with rfl | hx
      · exact le_refl x
      · exact hs.1 x hx
    · rw [List.find?_cons_of_neg _ (by simpa using ha)] at hw
      have hr := ih hs.2 hw
      refine ⟨List.mem_cons_of_mem _ hr.1, hr.2.1, fun x hx hcx => ?_⟩
      rcases List.mem_cons.mp hx with rfl | hx
      · exact absurd hcx ha
      · exact hr.2.2 x hx hcx

theorem find?_sorted_none (cur : Nat) (l : List Nat)
    (hw : l.find? (fun d => cur < d) = none) : ∀ x ∈ l, x ≤ cur := by
  intro x hx
  have := List.find?_eq_none.mp hw x hx
  simp at this
  exact this

theorem sorted_head_min (a : Nat) (rest : List Nat)
    (hs : List.Sorted (· ≤ ·) (a :: rest)) : ∀ x ∈ a :: rest, a ≤ x := by
  rw [List.sorted_cons] at hs
  intro x hx
  rcases List.mem_cons.mp hx with rfl | hx
  · exact le_refl x
  · exact hs.1 x hx

theorem weeklyDaysToAdd_spec (cur : Nat) (ws : List Nat) (hne : ws ≠ [])
    (hvalid : ∀ d ∈ ws, d < 7) (hcur : cur < 7) :
    0 < weeklyDaysToAdd cur ws ∧ weeklyDaysToAdd cur ws ≤ 7 ∧
    (cur + weeklyDaysToAdd cur ws) % 7 ∈ ws ∧
    (∀ b2 : Nat, 0 < b2 → b2 < weeklyDaysToAdd cur ws → (cur + b2) % 7 ∉ ws) := by
  have hsorted : List.Sorted (· ≤ ·) (ws.insertionSort (· ≤ ·)) :=
    List.sorted_insertionSort (· ≤ ·) ws
  have hmem : ∀ x : Nat, x ∈ ws.insertionSort (· ≤ ·) ↔ x ∈ ws :=
    fun x => List.mem_insertionSort (· ≤ ·)
  cases hfind : (ws.insertionSort (· ≤ ·)).find? (fun day => cur < day) with
  | some w =>
    have hval : weeklyDaysToAdd cur ws = w - cur := by
      simp only [weeklyDaysToAdd]
      rw [hfind]
    have hsp := find?_sorted_some cur _ hsorted w hfind
    have hwin : w ∈ ws := (hmem w).mp hsp.1
    have hw7 : w < 7 := hvalid w hwin
    have hcw : cur < w := hsp.2.1
    rw [hval]
    refine ⟨by omega, by omega, ?_, ?_⟩
    · have hsum : cur + (w - cur) = w := by omega
      rw [hsum, Nat.mod_eq_of_lt hw7]
      exact hwin
    · intro b2 hb2 hblt hbin
      have hlt : cur + b2 < 7 := by omega
      rw [Nat.mod_eq_of_lt hlt] at hbin
      have := hsp.2.2 (cur + b2) ((hmem _).mpr hbin) (by omega)
      omega
  | none =>
    have hall := find?_sorted_none cur _ hfind
    obtain ⟨a, rest, hsl⟩ : ∃ a rest, ws.insertionSort (· ≤ ·) = a :: rest := by
      cases hq : ws.insertionSort (· ≤ ·) with
      | nil =>
        exfalso
        apply hne
        have hperm := List.perm_insertionSort (· ≤ ·) ws
        rw [hq] at hperm
        exact hperm.symm.eq_nil
      | cons a rest => exact ⟨a, rest, rfl⟩
    have hval : weeklyDaysToAdd cur ws = 7 - cur + a := by
      simp only [weeklyDaysToAdd]
      rw [hfind, hsl]
      simp
    have hmin : ∀ x ∈ ws, a ≤ x := by
      intro x hx
      exact sorted_head_min a rest (hsl ▸ hsorted) x (by rw [← hsl]; exact (hmem x).mpr hx)
    have hain : a ∈ ws := (hmem a).mp (by rw [hsl]; simp)
    have ha7 : a < 7 := hvalid a hain
    have hacur : a ≤ cur := hall a (by rw [hsl]; simp)
    rw [hval]
    refine ⟨by omega, by omega, ?_, ?_⟩
    · have hsum : cur + (7 - cur + a) = 7 + a := by omega
      rw [hsum, Nat.add_mod_left, Nat.mod_eq_of_lt ha7]
      exact hain
    · intro b2 hb2 hblt hbin
      by_cases hcb : cur + b2 < 7
      · rw [Nat.mod_eq_of_lt hcb] at hbin
        have := hall (cur + b2) ((hmem _).mpr hbin)
        omega
      · have h14 : cur + b2 < 14 := by omega
        have hmod : (cur + b2) % 7 = cur + b2 - 7 := by omega
        rw [hmod] at hbin
        have := hmin _ hbin
        omega

theorem dayOfWeek_add (x b : Nat) : dayOfWeek (x + b) = (dayOfWeek x + b) % 7 := by
  unfold dayOfWeek
  omega

theorem calculateNextRun_weekly (now : DateTime) (schedule : VpnSchedule)
    (ws : List Nat) (hws : schedule.weekdays = some ws) (hne : ws ≠ [])
    (hwk : schedule.repeatType = .Weekly)
    (hvalid : ∀ d ∈ ws, d < 7)
    (hh mm : Nat) (hparse : parseTime schedule.time = (hh, mm))
    (hhm : hh < 24) (hmm2 : mm < 60) (hsod : now.sod < 86400) :
    earliestWeekly now ((hh * 60 + mm) * 60) ws (calculateNextRun now schedule) := by
  have hcur7 : dayOfWeek now.day < 7 := by unfold dayOfWeek; omega
  have hspec := weeklyDaysToAdd_spec (dayOfWeek now.day) ws hne hvalid hcur7
  have htS : (hh * 60 + mm) * 60 < 86400 := by omega
  by_cases hpassed : (hh * 60 + mm) * 60 ≤ now.sod
  · have hval : calculateNextRun now schedule =
        (now.day + weeklyDaysToAdd (dayOfWeek now.day) ws) * 86400 + (hh * 60 + mm) * 60 := by
      simp only [calculateNextRun, hparse, hwk, hws, DateTime.toSec]
      rw [if_pos (by omega)]
    rw [hval]
    constructor
    · refine ⟨now.day + weeklyDaysToAdd (dayOfWeek now.day) ws, rfl, ?_, ?_⟩
      · rw [dayOfWeek_add]
        exact hspec.2.2.1
      · simp only [DateTime.toSec]
        nlinarith [hspec.1]
    · intro dd hdd hfut
      simp only [DateTime.toSec] at hfut
      by_contra hcon
      push_neg at hcon
      have hddgt : now.day < dd := by nlinarith
      have hddlt : dd < now.day + weeklyDaysToAdd (dayOfWeek now.day) ws := by nlinarith
      have hb : dd = now.day + (dd - now.day) := by omega
      rw [hb, dayOfWeek_add] at hdd
      exact hspec.2.2.2 (dd - now.day) (by omega) (by omega) hdd
  · by_cases hctn : dayOfWeek now.day ∈ ws
    · have hval : calculateNextRun now schedule = now.day * 86400 + (hh * 60 + mm) * 60 := by
        simp only [calculateNextRun, hparse, hwk, hws, DateTime.toSec]
        rw [if_neg (by omega)]
        simp [hctn]
      rw [hval]
      constructor
      · exact ⟨now.day, rfl, hctn, by simp only [DateTime.toSec]; omega⟩
      · intro dd hdd hfut
        simp only [DateTime.toSec] at hfut
        have : now.day ≤ dd := by nlinarith
        nlinarith
    · have hval : calculateNextRun now schedule =
          (now.day + weeklyDaysToAdd (dayOfWeek now.day) ws) * 86400 + (hh * 60 + mm) * 60 := by
        simp only [calculateNextRun, hparse, hwk, hws, DateTime.toSec]
        rw [if_neg (by omega)]
        simp [hctn]
      rw [hval]
      constructor
      · refine ⟨now.day + weeklyDaysToAdd (dayOfWeek now.day) ws, rfl, ?_, ?_⟩
        · rw [dayOfWeek_add]
          exact hspec.2.2.1
        · simp only [DateTime.toSec]
          nlinarith [hspec.1]
      · intro dd hdd hfut
        simp only [DateTime.toSec] at hfut
        by_contra hcon
        push_neg at hcon
        have hddge : now.day ≤ dd := by nlinarith
        have hddne : dd ≠ now.day := by
          intro heq
          rw [heq] at hdd
          exact hctn hdd
        have hddlt : dd < now.day + weeklyDaysToAdd (dayOfWeek now.day) ws := by nlinarith
        have hb : dd = now.day + (dd - now.day) := by omega
        rw [hb, dayOfWeek_add] at hdd
        exact hspec.2.2.2 (dd - now.day) (by omega) (by omega) hdd

/-- C7: for every well-formed Weekly schedule, `calculateNextRun` returns
the earliest strictly-future timestamp at the schedule time whose weekday is
in the configured set (smallest configured weekday strictly greater than
today, wrapping to the smallest configured weekday next week); in
particular, for time 09:00 with weekdays Monday and Wednesday, evaluation on
Tuesday (epoch day 5) at 10:00 yields the following Wednesday (day 6) 09:00,
and evaluation on Monday (day 4) at 08:00 yields that same Monday 09:00. -/
theorem weekly_next_run_correct (now : DateTime) (schedule : VpnSchedule)
    (ws : List Nat) (hws : schedule.weekdays = some ws) (hne : ws ≠ [])
    (hwk : schedule.repeatType = .Weekly)
    (hvalid : ∀ d ∈ ws, d < 7)
    (hh mm : Nat) (hparse : parseTime schedule.time = (hh, mm))
    (hhm : hh < 24) (hmm2 : mm < 60) (hsod : now.sod < 86400) :
    earliestWeekly now ((hh * 60 + mm) * 60) ws (calculateNextRun now schedule) ∧
    calculateNextRun ⟨5, 10 * 3600⟩ monWedSchedule = DateTime.toSec ⟨6, 9 * 3600⟩ ∧
    calculateNextRun ⟨4, 8 * 3600⟩ monWedSchedule = DateTime.toSec ⟨4, 9 * 3600⟩ :=
  ⟨calculateNextRun_weekly now schedule ws hws hne hwk hvalid hh mm hparse hhm hmm2 hsod,
    by decide, by decide⟩

/-- Witness for C7 at the concrete Monday/Wednesday 09:00 schedule evaluated
on a Tuesday at 10:00. -/
theorem weekly_next_run_correct_witness :
    earliestWeekly ⟨5, 10 * 3600⟩ ((9 * 60 + 0) * 60) [1, 3]
      (calculateNextRun ⟨5, 10 * 3600⟩ monWedSchedule) ∧
    calculateNextRun ⟨5, 10 * 3600⟩ monWedSchedule = DateTime.toSec ⟨6, 9 * 3600⟩ ∧
    calculateNextRun ⟨4, 8 * 3600⟩ monWedSchedule = DateTime.toSec ⟨4, 9 * 3600⟩ :=
  weekly_next_run_correct ⟨5, 10 * 3600⟩ monWedSchedule [1, 3] rfl (by decide) rfl
    (by decide) 9 0 (by decide) (by decide) (by decide) (by decide)

end OpenForti
